import Mathlib

/-
Verification development for the typing-quest game core.

Shallow embedding conventions:
* JavaScript numbers are modelled as rationals (ℚ); all numeric literals in
  the source are finite decimals, so arithmetic is exact.
* JavaScript strings that the game logic inspects character by character are
  modelled as lists of characters (Str); opaque identifier/label strings are
  modelled as Lean String values.
* Math.round is modelled by jsRound (half-up rounding, as in JavaScript for
  the values that occur here); Math.floor by Int.floor; Math.min / Math.max
  by min / max.
* Math.random() draws and Date.now() timestamps are passed explicitly as
  parameters (a Rng structure supplies a stream of draws).
* The per-class mutable state of each component is passed explicitly;
  methods become functions from state (plus arguments) to state (plus
  results).  Events emitted on the adapter are collected in an output list.
* Thrown JavaScript exceptions are modelled with Except / an explicit
  Option String exception channel.
-/

namespace TypingQuest

/-- Strings manipulated by the game logic, modelled as character lists. -/
abbrev Str := List Char

/-- JavaScript Math.round: half-up rounding to an integer. -/
def jsRound (q : ℚ) : ℤ := ⌊q + 1/2⌋

/-- JavaScript lowercasing of a string (String.prototype.toLowerCase). -/
def jsToLower (s : Str) : Str := s.map Char.toLower

/-- JavaScript a.startsWith(b): b is a prefix of a. -/
def jsStartsWith (a b : Str) : Bool := b.isPrefixOf a

/-- JavaScript s[i]: character at an index, undefined (none) out of bounds. -/
def jsCharAt (s : Str) (i : ℕ) : Option Char := s.get? i

/-- JavaScript (o || d) on an optional number: falsy (absent or zero) falls
back to the default. -/
def jsOrNum (o : Option ℚ) (d : ℚ) : ℚ :=
  match o with
  | some x => if x = 0 then d else x
  | none => d

/-- Stream of Math.random() draws, consumed in order. -/
structure Rng where
  draws : ℕ → ℚ
  idx : ℕ

/-- Consume the next Math.random() draw. -/
def Rng.next (r : Rng) : ℚ × Rng := (r.draws r.idx, { r with idx := r.idx + 1 })

/- ===========================================================================
   Core types (src types.ts)
   =========================================================================== -/

/-- GameDifficulty = 'EASY' | 'NORMAL' | 'HARD'. -/
inductive GameDifficulty | EASY | NORMAL | HARD
deriving DecidableEq, Repr

/-- GameStatus = 'LOADING' | 'READY' | 'PLAYING' | 'PAUSED' | 'ENDED'. -/
inductive GameStatus | LOADING | READY | PLAYING | PAUSED | ENDED
deriving DecidableEq, Repr

/-- ActionType = 'ATTACK' | 'HEAL' | 'GUARD'. -/
inductive ActionType | ATTACK | HEAL | GUARD
deriving DecidableEq, Repr

/-- The non-null values of WordLock = 'heal' | 'attack' | 'guard' | null;
null is modelled by Option.none around this type. -/
inductive LockType | heal | attack | guard
deriving DecidableEq, Repr

/-- WordLevel = 1 | 2 | 3 | 4 | 5. -/
inductive WordLevel | l1 | l2 | l3 | l4 | l5
deriving DecidableEq, Repr

/-- Numeric value of a word level. -/
def WordLevel.val : WordLevel → ℚ
  | .l1 => 1 | .l2 => 2 | .l3 => 3 | .l4 => 4 | .l5 => 5

/-- Word record (id, text, level, optional category, length, optional
expected WPM). -/
structure Word where
  id : String
  text : Str
  level : WordLevel
  category : Option String
  length : ℚ
  expectedWPM : Option ℚ
deriving DecidableEq, Repr

/-- Keys delivered to the input pipeline: a printable character or one of
the special keys compared against the string literals 'Backspace' and
'Enter' in the source. -/
inductive Key | ch (c : Char) | backspace | enter
deriving DecidableEq, Repr

/-- KeystrokePattern: per-key intervals (Record<string, number>, modelled as
an association list keyed by Key with JavaScript object insert-or-overwrite
semantics), correction and backspace counts, longest error-free run. -/
structure KeystrokePattern where
  intervals : List (Key × ℚ)
  corrections : ℕ
  backspaceCount : ℕ
  perfectStreak : ℕ
deriving DecidableEq, Repr

/-- JavaScript object/Map property write obj[k] = v on an association
list: overwrite in place if the key exists (keeping first-insertion
order), otherwise append. -/
def jsObjSet {κ α : Type} [DecidableEq κ] (l : List (κ × α)) (k : κ)
    (v : α) : List (κ × α) :=
  match l with
  | [] => [(k, v)]
  | (k', v') :: rest =>
      if k' = k then (k, v) :: rest else (k', v') :: jsObjSet rest k v

/-- CompletedWord: a Word (flattened by object spread in the source; kept
as a nested field here) plus the outcome of one typing attempt. -/
structure CompletedWord where
  word : Word
  typedText : Str
  timeMs : ℚ
  errors : ℕ
  accuracy : ℚ
  wpm : ℚ
  score : ℚ
  keystrokePattern : Option KeystrokePattern
deriving DecidableEq, Repr

/-- KeystrokeEvent record. -/
structure KeystrokeEvent where
  key : Key
  timestamp : ℚ
  inputLength : ℕ
  isCorrection : Bool
deriving DecidableEq, Repr

/-- HealthPoints record. -/
structure HealthPoints where
  player : ℚ
  enemy : ℚ
  playerMax : ℚ
  enemyMax : ℚ
deriving DecidableEq, Repr

/-- CurrentWords record; guard is the optional third word. -/
structure CurrentWords where
  heal : Word
  attack : Word
  guard : Option Word
deriving DecidableEq, Repr

/-- GameStats record. -/
structure GameStats where
  wpm : ℚ
  accuracy : ℚ
  totalDamage : ℚ
  totalHealing : ℚ
  attackCount : ℚ
  healCount : ℚ
  guardCount : ℚ
  maxCombo : ℚ
  wordsCompleted : ℚ
deriving DecidableEq, Repr

/-- GameState: the canonical snapshot. -/
structure GameState where
  status : GameStatus
  hp : HealthPoints
  currentWords : CurrentWords
  locked : Option LockType
  combo : ℚ
  stats : GameStats
  timeLeft : ℚ
  round : ℚ
deriving DecidableEq, Repr

/- ===========================================================================
   Combat calculations (combatCalculations.ts)
   =========================================================================== -/

/-- CombatConfig record. -/
structure CombatConfig where
  difficulty : GameDifficulty
  playerLevel : ℚ
  combo : ℚ
  timeRemaining : ℚ
  totalTime : ℚ
deriving DecidableEq, Repr

/-- DamageModifiers record. -/
structure DamageModifiers where
  base : ℚ
  accuracy : ℚ
  speed : ℚ
  combo : ℚ
  critical : ℚ
  level : ℚ
  difficulty : ℚ
deriving DecidableEq, Repr

/-- CombatCalculationResult.  The human-readable breakdown string list of
the source is omitted (it is never consumed by game logic). -/
structure CombatCalculationResult where
  baseValue : ℚ
  finalValue : ℚ
  isCritical : Bool
  modifiers : DamageModifiers
deriving DecidableEq, Repr

/-- DIFFICULTY_MODIFIERS table. -/
def DIFFICULTY_MODIFIERS : GameDifficulty → ℚ
  | .EASY => 1.2 | .NORMAL => 1.0 | .HARD => 0.8

/-- WORD_LEVEL_BASE_DAMAGE table (L1=15 … L5=35). -/
def WORD_LEVEL_BASE_DAMAGE : WordLevel → ℚ
  | .l1 => 15 | .l2 => 20 | .l3 => 25 | .l4 => 30 | .l5 => 35

/-- WORD_LEVEL_BASE_HEALING table (L1=12 … L5=28). -/
def WORD_LEVEL_BASE_HEALING : WordLevel → ℚ
  | .l1 => 12 | .l2 => 16 | .l3 => 20 | .l4 => 24 | .l5 => 28

/-- Expected WPM estimated from word characteristics (getExpectedWPM):
per-level base table reduced by a per-character penalty for words longer
than 6 characters, floored at 20. -/
def getExpectedWPM (cw : CompletedWord) : ℚ :=
  let baseDifficulty : ℚ :=
    match cw.word.level with
    | .l1 => 45 | .l2 => 40 | .l3 => 35 | .l4 => 30 | .l5 => 25
  let lengthPenalty := max 0 (cw.word.length - 6) * 2
  max 20 (baseDifficulty - lengthPenalty)

/-- calculateAccuracyModifier: flat 0.5 below 0.7 accuracy; 1.3 (times 0.8
when healing) at or above 1.0; linear from 0.8 to 1.3 in between. -/
def calculateAccuracyModifier (accuracy : ℚ) (isHealing : Bool) : ℚ :=
  if accuracy < 0.7 then 0.5
  else if accuracy ≥ 1.0 then (if isHealing then 1.3 * 0.8 else 1.3)
  else 0.8 + ((accuracy - 0.7) / (1.0 - 0.7)) * 0.5

/-- calculateSpeedModifier: 0.7 penalty below ratio 0.8, capped bonus at or
above ratio 1.2, neutral otherwise. -/
def calculateSpeedModifier (actualWPM expectedWPM : ℚ) (isHealing : Bool) : ℚ :=
  let speedFactor := actualWPM / expectedWPM
  if speedFactor < 0.8 then 0.7
  else if speedFactor ≥ 1.2 then
    min (if isHealing then 1.2 else 1.3) (1.0 + (speedFactor - 1.0) * 0.5)
  else 1.0

/-- calculateComboModifier: the source scans thresholds [0,5,10,20,35,50]
from the top for the highest one not exceeding the combo (index 0, hence
multiplier 1.0, when the combo is below all thresholds), then applies the
scaling to the excess over 1. -/
def calculateComboModifier (combo : ℚ) (scaling : ℚ) : ℚ :=
  let baseMultiplier : ℚ :=
    if combo ≥ 50 then 2.0
    else if combo ≥ 35 then 1.7
    else if combo ≥ 20 then 1.4
    else if combo ≥ 10 then 1.2
    else if combo ≥ 5 then 1.1
    else 1.0
  1.0 + (baseMultiplier - 1.0) * scaling

/-- calculateLevelModifier: 5% per player level above 1, scaled. -/
def calculateLevelModifier (playerLevel : ℚ) (scaling : ℚ) : ℚ :=
  let baseBonus := 1.0 + (playerLevel - 1) * 0.05
  1.0 + (baseBonus - 1.0) * scaling

/-- calculateCriticalHitChance: base 5%, +10% at accuracy ≥ 0.95, +15% for
perfect error-free typing, +8% above 1.3× expected WPM, plus up to 20%
from combo, capped at 50%. -/
def calculateCriticalHitChance (cw : CompletedWord) (config : CombatConfig) : ℚ :=
  let c0 : ℚ := 0.05
  let c1 := if cw.accuracy ≥ 0.95 then c0 + 0.1 else c0
  let c2 := if cw.errors = 0 ∧ cw.accuracy ≥ 1.0 then c1 + 0.15 else c1
  let expectedWPM := jsOrNum cw.word.expectedWPM (getExpectedWPM cw)
  let c3 := if cw.wpm > expectedWPM * 1.3 then c2 + 0.08 else c2
  let c4 := c3 + min 0.2 (config.combo * 0.01)
  min 0.5 c4

/-- calculateAttackDamage: base from the word level, times accuracy, speed,
combo, level, difficulty and critical modifiers, rounded, floored at 1.
The Math.random() critical draw is the rand parameter. -/
def calculateAttackDamage (cw : CompletedWord) (config : CombatConfig)
    (rand : ℚ) : CombatCalculationResult :=
  let baseDamage := WORD_LEVEL_BASE_DAMAGE cw.word.level
  let mAccuracy := calculateAccuracyModifier cw.accuracy false
  let mSpeed := calculateSpeedModifier cw.wpm
    (jsOrNum cw.word.expectedWPM (getExpectedWPM cw)) false
  let mCombo := calculateComboModifier config.combo 1.0
  let mLevel := calculateLevelModifier config.playerLevel 1.0
  let mDifficulty := DIFFICULTY_MODIFIERS config.difficulty
  let criticalChance := calculateCriticalHitChance cw config
  let isCritical := decide (rand < criticalChance)
  let mCritical := if isCritical then 1.8 else 1.0
  let finalDamage : ℚ :=
    ((max 1 (jsRound (baseDamage * mAccuracy * mSpeed * mCombo * mLevel *
      mDifficulty * mCritical)) : ℤ) : ℚ)
  { baseValue := baseDamage
    finalValue := finalDamage
    isCritical := isCritical
    modifiers :=
      { base := baseDamage, accuracy := mAccuracy, speed := mSpeed,
        combo := mCombo, critical := mCritical, level := mLevel,
        difficulty := mDifficulty } }

/-- calculateHealingAmount: same structural formula with the healing base
table, healing accuracy/speed curves, 0.7 combo scaling, 0.8 level scaling,
0.6× critical chance and a 1.5 critical multiplier. -/
def calculateHealingAmount (cw : CompletedWord) (config : CombatConfig)
    (rand : ℚ) : CombatCalculationResult :=
  let baseHealing := WORD_LEVEL_BASE_HEALING cw.word.level
  let mAccuracy := calculateAccuracyModifier cw.accuracy true
  let mSpeed := calculateSpeedModifier cw.wpm
    (jsOrNum cw.word.expectedWPM (getExpectedWPM cw)) true
  let mCombo := calculateComboModifier config.combo 0.7
  let mLevel := calculateLevelModifier config.playerLevel 0.8
  let mDifficulty := DIFFICULTY_MODIFIERS config.difficulty
  let criticalChance := calculateCriticalHitChance cw config * 0.6
  let isCritical := decide (rand < criticalChance)
  let mCritical := if isCritical then 1.5 else 1.0
  let finalHealing : ℚ :=
    ((max 1 (jsRound (baseHealing * mAccuracy * mSpeed * mCombo * mLevel *
      mDifficulty * mCritical)) : ℤ) : ℚ)
  { baseValue := baseHealing
    finalValue := finalHealing
    isCritical := isCritical
    modifiers :=
      { base := baseHealing, accuracy := mAccuracy, speed := mSpeed,
        combo := mCombo, critical := mCritical, level := mLevel,
        difficulty := mDifficulty } }

/-- calculateGuardEffectiveness: base effectiveness 0.4 + 0.1 per word
level, plus accuracy and speed bonuses, clamped to [0.1, 0.95]; a perfect
guard (accuracy ≥ 0.98, zero errors) returns the full incoming damage. -/
def calculateGuardEffectiveness (cw : CompletedWord) (incomingDamage : ℚ)
    (_config : CombatConfig) : CombatCalculationResult :=
  let baseEffectiveness := 0.4 + cw.word.level.val * 0.1
  let accuracyBonus := (cw.accuracy - 0.7) * 0.5
  let speedBonus : ℚ :=
    if cw.wpm > jsOrNum cw.word.expectedWPM (getExpectedWPM cw) then 0.1 else 0
  let finalEffectiveness :=
    min 0.95 (max 0.1 (baseEffectiveness + accuracyBonus + speedBonus))
  let damageBlocked : ℚ := ((jsRound (incomingDamage * finalEffectiveness) : ℤ) : ℚ)
  let isCritical := decide (cw.accuracy ≥ 0.98 ∧ cw.errors = 0)
  { baseValue := ((jsRound (incomingDamage * baseEffectiveness) : ℤ) : ℚ)
    finalValue := if isCritical then incomingDamage else damageBlocked
    isCritical := isCritical
    modifiers :=
      { base := baseEffectiveness, accuracy := accuracyBonus,
        speed := speedBonus, combo := 0,
        critical := if isCritical then 1.0 else 0, level := 0,
        difficulty := 1.0 } }

/-- MIN_ACCURACY_FOR_SUCCESS constant. -/
def MIN_ACCURACY_FOR_SUCCESS : ℚ := 0.7

/-- AttackResult record. -/
structure AttackResult where
  success : Bool
  word : CompletedWord
  value : ℚ
  critical : Bool
  combo : ℚ
  enemyHpBefore : ℚ
  enemyHpAfter : ℚ
  damageDealt : ℚ
  message : Option String
deriving DecidableEq, Repr

/-- HealResult record. -/
structure HealResult where
  success : Bool
  word : CompletedWord
  value : ℚ
  critical : Bool
  combo : ℚ
  playerHpBefore : ℚ
  playerHpAfter : ℚ
  healingDone : ℚ
  message : Option String
deriving DecidableEq, Repr

/-- GuardResult record. -/
structure GuardResult where
  success : Bool
  word : CompletedWord
  value : ℚ
  critical : Bool
  combo : ℚ
  blocked : Bool
  damageBlocked : ℚ
  damageReceived : ℚ
  message : Option String
deriving DecidableEq, Repr

/-- ActionResult: the union of the three concrete result types (the type
tag of the source record becomes the constructor). -/
inductive ActionResult
  | attack (r : AttackResult)
  | heal (r : HealResult)
  | guard (r : GuardResult)
deriving DecidableEq, Repr

/-- Combo carried by an action result. -/
def ActionResult.combo : ActionResult → ℚ
  | .attack r => r.combo | .heal r => r.combo | .guard r => r.combo

/-- Value carried by an action result. -/
def ActionResult.value : ActionResult → ℚ
  | .attack r => r.value | .heal r => r.value | .guard r => r.value

/-- createAttackResult helper. -/
def createAttackResult (cw : CompletedWord) (calculation : CombatCalculationResult)
    (enemyHpBefore : ℚ) (combo : ℚ) : AttackResult :=
  let damageDealt := calculation.finalValue
  { success := decide (cw.accuracy ≥ MIN_ACCURACY_FOR_SUCCESS)
    word := cw
    value := damageDealt
    critical := calculation.isCritical
    combo := combo
    enemyHpBefore := enemyHpBefore
    enemyHpAfter := max 0 (enemyHpBefore - damageDealt)
    damageDealt := damageDealt
    message := if calculation.isCritical then some "Critical Hit!" else none }

/-- createHealResult helper. -/
def createHealResult (cw : CompletedWord) (calculation : CombatCalculationResult)
    (playerHpBefore playerMaxHp : ℚ) (combo : ℚ) : HealResult :=
  let healingDone := calculation.finalValue
  { success := decide (cw.accuracy ≥ MIN_ACCURACY_FOR_SUCCESS)
    word := cw
    value := healingDone
    critical := calculation.isCritical
    combo := combo
    playerHpBefore := playerHpBefore
    playerHpAfter := min playerMaxHp (playerHpBefore + healingDone)
    healingDone := healingDone
    message := if calculation.isCritical then some "Critical Heal!" else none }

/-- createGuardResult helper. -/
def createGuardResult (cw : CompletedWord) (calculation : CombatCalculationResult)
    (incomingDamage : ℚ) (combo : ℚ) : GuardResult :=
  let damageBlocked := calculation.finalValue
  let damageReceived := max 0 (incomingDamage - damageBlocked)
  { success := decide (cw.accuracy ≥ MIN_ACCURACY_FOR_SUCCESS)
    word := cw
    value := damageBlocked
    critical := calculation.isCritical
    combo := combo
    blocked := calculation.isCritical || decide (damageReceived = 0)
    damageBlocked := damageBlocked
    damageReceived := damageReceived
    message := if calculation.isCritical then some "Perfect Guard!" else none }

/- ===========================================================================
   Input validator (inputValidator.ts)
   =========================================================================== -/

/-- GameValidationRules record. -/
structure GameValidationRules where
  maxWPM : ℚ
  minCharTime : ℚ
  maxConsecutivePerfect : ℕ
  minVariance : ℚ
deriving DecidableEq, Repr

/-- DEFAULT_VALIDATION_RULES constants. -/
def DEFAULT_VALIDATION_RULES : GameValidationRules :=
  { maxWPM := 250, minCharTime := 50, maxConsecutivePerfect := 15,
    minVariance := 10 }

/-- Flag string constant 'perfect_intervals'. -/
def FLAG_PERFECT_INTERVALS : String := "perfect_intervals"

/-- Flag string constant 'no_corrections'. -/
def FLAG_NO_CORRECTIONS : String := "no_corrections"

/-- Flag string constant 'impossible_speed'. -/
def FLAG_IMPOSSIBLE_SPEED : String := "impossible_speed"

/-- Flag string constant 'zero_variance'. -/
def FLAG_ZERO_VARIANCE : String := "zero_variance"

/-- Flag string constant 'invalid_progression'. -/
def FLAG_INVALID_PROGRESSION : String := "invalid_progression"

/-- TypingSession: mutable in-progress record of one attempt. -/
structure TypingSession where
  word : Word
  startTime : ℚ
  endTime : ℚ
  keystrokes : List KeystrokeEvent
  currentInput : Str
  errors : ℕ
  corrections : ℕ
  perfectStreak : ℕ
deriving DecidableEq, Repr

/-- TypingMetrics returned by validateCompletedWord. -/
structure TypingMetrics where
  wpm : ℚ
  accuracy : ℚ
  timeMs : ℚ
  keystrokePattern : KeystrokePattern
  isValid : Bool
  flags : List String
deriving DecidableEq, Repr

/-- Mutable state of the InputValidator class: configured rules, the
rolling perfect-word streak counter, and the accumulated session flag set
(a JavaScript Set, modelled as a duplicate-free list in insertion order). -/
structure InputValidator where
  rules : GameValidationRules
  perfectWordCount : ℕ
  sessionFlags : List String
deriving DecidableEq, Repr

/-- Fresh InputValidator with the default rules (new InputValidator()). -/
def InputValidator.mk0 : InputValidator :=
  { rules := DEFAULT_VALIDATION_RULES, perfectWordCount := 0,
    sessionFlags := [] }

/-- JavaScript Set.add on the session flag list: append if absent. -/
def jsSetAdd (s : List String) (x : String) : List String :=
  if x ∈ s then s else s ++ [x]

/-- calculateWPM: (characters / 5) / (time in minutes), rounded to two
decimal places; 0 for non-positive durations. -/
def calculateWPM (text : Str) (timeMs : ℚ) : ℚ :=
  if timeMs ≤ 0 then 0
  else
    let words := (text.length : ℚ) / 5
    let minutes := timeMs / 60000
    ((jsRound ((words / minutes) * 100) : ℤ) : ℚ) / 100

/-- calculateAccuracy: fraction of matching characters at aligned
positions, penalised by the absolute length difference, clamped to [0,1].
The errors parameter of the source is unused there too. -/
def calculateAccuracy (targetText typedText : Str) (_errors : ℕ) : ℚ :=
  if targetText.length = 0 then 1
  else
    let correct : ℕ := ((targetText.zip typedText).filter
      (fun p => p.1 = p.2)).length
    let lengthPenalty : ℚ := |(targetText.length : ℚ) - (typedText.length : ℚ)|
    let totalCharacters : ℚ := (targetText.length : ℚ)
    let baseAccuracy := (correct : ℚ) / totalCharacters
    let penaltyAccuracy := max 0 (baseAccuracy - lengthPenalty / totalCharacters)
    max 0 (min 1 penaltyAccuracy)

/-- Loop body of analyzeKeystrokePattern (iteration from the second
keystroke onward, carrying the running interval map, counters and current
streak). -/
def analyzePatternAux (prev : KeystrokeEvent) (rest : List KeystrokeEvent)
    (intervals : List (Key × ℚ))
    (corrections backspaceCount perfectStreak currentStreak : ℕ) :
    KeystrokePattern :=
  match rest with
  | [] =>
      { intervals := intervals, corrections := corrections,
        backspaceCount := backspaceCount, perfectStreak := perfectStreak }
  | current :: tail =>
      let intervals := jsObjSet intervals current.key
        (current.timestamp - prev.timestamp)
      if current.key = Key.backspace then
        analyzePatternAux current tail intervals (corrections + 1)
          (backspaceCount + 1) perfectStreak 0
      else if current.isCorrection then
        analyzePatternAux current tail intervals (corrections + 1)
          backspaceCount perfectStreak 0
      else
        analyzePatternAux current tail intervals corrections backspaceCount
          (max perfectStreak (currentStreak + 1)) (currentStreak + 1)

/-- analyzeKeystrokePattern: interval map and correction statistics over
the keystroke log; empty pattern for fewer than two keystrokes. -/
def analyzeKeystrokePattern (keystrokes : List KeystrokeEvent) :
    KeystrokePattern :=
  match keystrokes with
  | [] =>
      { intervals := [], corrections := 0, backspaceCount := 0,
        perfectStreak := 0 }
  | [_] =>
      { intervals := [], corrections := 0, backspaceCount := 0,
        perfectStreak := 0 }
  | k0 :: rest => analyzePatternAux k0 rest [] 0 0 0 0

/-- Square of the source's calculateVariance (which returns the standard
deviation sqrt(Σ(x−mean)²/n)).  The square root does not exist in ℚ, so
this embedding keeps the radicand; every comparison sqrt(v) < m in the
source is translated to the equivalent 0 < m ∧ v < m². -/
def calculateVarianceSq (values : List ℚ) : ℚ :=
  if values.length = 0 then 0
  else
    let mean := values.sum / (values.length : ℚ)
    (values.map (fun v => (v - mean) ^ 2)).sum / (values.length : ℚ)

/-- JavaScript regex class [a-zA-Z]. -/
def isAsciiLetter (c : Char) : Bool :=
  ('a' ≤ c && c ≤ 'z') || ('A' ≤ c && c ≤ 'Z')

/-- calculateWordComplexity: length, character variety, level and
special-character contributions, capped at 1.  The regex \s is modelled by
Char.isWhitespace. -/
def calculateWordComplexity (word : Word) : ℚ :=
  let lengthComplexity := min 0.3 (word.length / 20)
  let uniqueChars : ℕ := (jsToLower word.text).dedup.length
  let varietyComplexity := min 0.3 ((uniqueChars : ℚ) / 15)
  let levelComplexity := (word.level.val - 1) * 0.1
  let specialChars := word.text.filter
    (fun c => !(isAsciiLetter c || c.isWhitespace))
  let specialComplexity : ℚ :=
    if specialChars.length > 0 then (specialChars.length : ℚ) * 0.05 else 0
  min 1.0 (lengthComplexity + varietyComplexity + levelComplexity +
    specialComplexity)

/-- validateKeystrokePattern: anti-cheat flags from the keystroke pattern
(bot-like uniformity, implausibly fast perfect streaks, too few
keystrokes), in the push order of the source. -/
def validateKeystrokePattern (rules : GameValidationRules)
    (pattern : KeystrokePattern) (session : TypingSession) : List String :=
  let intervals := (pattern.intervals.map Prod.snd).filter (fun i => 0 < i)
  let varianceFlags :=
    if intervals.length > 3 ∧ 0 < rules.minVariance ∧
        calculateVarianceSq intervals < rules.minVariance ^ 2 then
      [FLAG_ZERO_VARIANCE]
    else []
  let streakFlags :=
    if pattern.perfectStreak = session.word.text.length ∧
        pattern.corrections = 0 ∧
        calculateWordComplexity session.word > 0.7 ∧
        session.endTime - session.startTime <
          (session.word.text.length : ℚ) * 80 then
      [FLAG_PERFECT_INTERVALS]
    else []
  let progressionFlags :=
    if session.keystrokes.length < session.word.text.length then
      [FLAG_INVALID_PROGRESSION]
    else []
  varianceFlags ++ streakFlags ++ progressionFlags

/-- validateCompletedWord: computes the metrics of a finished session,
raises anti-cheat flags, and updates the validator's perfect-word streak
counter and accumulated session flags. -/
def validateCompletedWord (v : InputValidator) (session : TypingSession) :
    TypingMetrics × InputValidator :=
  let timeMs := session.endTime - session.startTime
  let wpm := calculateWPM session.word.text timeMs
  let accuracy := calculateAccuracy session.word.text session.currentInput
    session.errors
  let pattern := analyzeKeystrokePattern session.keystrokes
  let speedFlags :=
    (if wpm > v.rules.maxWPM then [FLAG_IMPOSSIBLE_SPEED] else []) ++
    (if timeMs < (session.word.text.length : ℚ) * v.rules.minCharTime then
      [FLAG_IMPOSSIBLE_SPEED] else [])
  let patternFlags := validateKeystrokePattern v.rules pattern session
  let isPerfect := accuracy ≥ 1.0 ∧ session.errors = 0
  let perfectWordCount := if isPerfect then v.perfectWordCount + 1 else 0
  let perfectFlags :=
    if isPerfect ∧ perfectWordCount > v.rules.maxConsecutivePerfect then
      [FLAG_NO_CORRECTIONS]
    else []
  let flags := speedFlags ++ patternFlags ++ perfectFlags
  let metrics : TypingMetrics :=
    { wpm := wpm, accuracy := accuracy, timeMs := timeMs,
      keystrokePattern := pattern, isValid := flags = [], flags := flags }
  (metrics,
    { v with perfectWordCount := perfectWordCount,
             sessionFlags := flags.foldl jsSetAdd v.sessionFlags })

/-- getExpectedWPMForWord: per-level base speed table reduced by a
per-character penalty for words longer than 6 characters, floored at 20. -/
def getExpectedWPMForWord (word : Word) : ℚ :=
  let baseWPM : ℚ :=
    match word.level with
    | .l1 => 45 | .l2 => 40 | .l3 => 35 | .l4 => 30 | .l5 => 25
  let lengthPenalty := max 0 (word.length - 6) * 2
  max 20 (baseWPM - lengthPenalty)

/-- calculateScore: base 100 scaled by accuracy, speed bonus above the
expected WPM, word-level bonus, and a 1.2× perfect-typing bonus; rounded
and floored at 0. -/
def calculateScore (metrics : TypingMetrics) (word : Word) : ℚ :=
  let s1 := 100 * metrics.accuracy
  let expectedWPM := getExpectedWPMForWord word
  let s2 :=
    if metrics.wpm > expectedWPM then
      s1 * (1 + ((metrics.wpm - expectedWPM) / expectedWPM) * 0.5)
    else s1
  let s3 := s2 * (1 + (word.level.val - 1) * 0.1)
  let s4 :=
    if metrics.accuracy ≥ 1.0 ∧ metrics.keystrokePattern.corrections = 0 then
      s3 * 1.2
    else s3
  max 0 ((jsRound s4 : ℤ) : ℚ)

/-- createCompletedWord: converts a finished session plus its metrics into
the immutable CompletedWord record. -/
def createCompletedWord (session : TypingSession) (metrics : TypingMetrics) :
    CompletedWord :=
  { word := session.word
    typedText := session.currentInput
    timeMs := metrics.timeMs
    errors := session.errors
    accuracy := metrics.accuracy
    wpm := metrics.wpm
    score := calculateScore metrics session.word
    keystrokePattern := some metrics.keystrokePattern }

/-- createTypingSession: fresh session for a word (Date.now() passed as
startTime; the actionType argument of the source is unused there too). -/
def createTypingSession (word : Word) (_actionType : ActionType)
    (startTime : ℚ) : TypingSession :=
  { word := word, startTime := startTime, endTime := 0, keystrokes := [],
    currentInput := [], errors := 0, corrections := 0, perfectStreak := 0 }

/-- updateTypingSession: appends a keystroke event, classifying it as a
correction when it is a Backspace or the newly typed character does not
match the target word at its position (JavaScript out-of-range indexing
yields undefined, modelled by Option). -/
def updateTypingSession (session : TypingSession) (key : Key)
    (newInput : Str) (timestamp : ℚ) : TypingSession :=
  let isCorrection : Bool :=
    key = Key.backspace ||
    (newInput.length > session.currentInput.length &&
      jsCharAt newInput (newInput.length - 1) ≠
        jsCharAt session.word.text (newInput.length - 1))
  let keystroke : KeystrokeEvent :=
    { key := key, timestamp := timestamp, inputLength := newInput.length,
      isCorrection := isCorrection }
  { session with
    keystrokes := session.keystrokes ++ [keystroke]
    currentInput := newInput
    errors := if isCorrection then session.errors + 1 else session.errors
    corrections :=
      if key = Key.backspace then session.corrections + 1
      else session.corrections }

/-- completeTypingSession: stamps the end time (Date.now() passed in). -/
def completeTypingSession (session : TypingSession) (endTime : ℚ) :
    TypingSession :=
  { session with endTime := endTime }

/- ===========================================================================
   Game state manager (GameStateManager.ts)
   =========================================================================== -/

/-- Validation error strings of the state manager, modelled as tagged
values (the source builds human-readable strings; the interpolated data is
kept as constructor arguments).  tagged models the trigger-prefixed
strings produced by batchUpdate. -/
inductive StateError
  | invalidStatus (fromStatus toStatus : GameStatus)
  | playerHpOut (v : ℚ)
  | enemyHpOut (v : ℚ)
  | negativeCombo (v : ℚ)
  | accuracyOut (v : ℚ)
  | negativeTime (v : ℚ)
  | emptyWordText (id : String)
  | wordLevelOut (v : ℚ)
  | wordLengthMismatch (expected : ℕ) (got : ℚ)
  | tagged (trigger : String) (e : StateError)
deriving DecidableEq, Repr

/-- ValidationResult record (valid flag plus itemized error list). -/
structure ValidationResult where
  valid : Bool
  errors : List StateError
deriving DecidableEq, Repr

/-- StateTransition history record. -/
structure StateTransition where
  fromState : GameState
  toState : GameState
  timestamp : ℚ
  trigger : String
  valid : Bool
deriving DecidableEq, Repr

/-- StateManagerOptions record. -/
structure StateManagerOptions where
  enableHistory : Bool
  maxHistorySize : ℕ
  validateTransitions : Bool
  enableLogging : Bool
deriving DecidableEq, Repr

/-- Mutable state of the GameStateManager class (subscribers and the event
bus perform only notification side effects and are not part of the state
model). -/
structure GameStateManager where
  currentState : GameState
  stateHistory : List StateTransition
  options : StateManagerOptions
deriving Repr

/-- Partial<GameState>: each field optionally updated.  The locked field
of GameState is itself nullable, hence the nested Option. -/
structure GSUpdate where
  status : Option GameStatus
  hp : Option HealthPoints
  currentWords : Option CurrentWords
  locked : Option (Option LockType)
  combo : Option ℚ
  stats : Option GameStats
  timeLeft : Option ℚ
  round : Option ℚ
deriving DecidableEq, Repr

/-- Empty Partial<GameState> (no key present). -/
def noUpdate : GSUpdate :=
  { status := none, hp := none, currentWords := none, locked := none,
    combo := none, stats := none, timeLeft := none, round := none }

/-- Object spread { ...state, ...updates }. -/
def mergeState (s : GameState) (u : GSUpdate) : GameState :=
  { status := u.status.getD s.status
    hp := u.hp.getD s.hp
    currentWords := u.currentWords.getD s.currentWords
    locked := u.locked.getD s.locked
    combo := u.combo.getD s.combo
    stats := u.stats.getD s.stats
    timeLeft := u.timeLeft.getD s.timeLeft
    round := u.round.getD s.round }

/-- Allowed targets of the status transition graph. -/
def statusTransitionTargets : GameStatus → List GameStatus
  | .LOADING => [.READY, .ENDED]
  | .READY => [.PLAYING, .ENDED]
  | .PLAYING => [.PAUSED, .ENDED]
  | .PAUSED => [.PLAYING, .ENDED]
  | .ENDED => []

/-- isValidStatusTransition: along the fixed graph, self-transitions always
allowed. -/
def isValidStatusTransition (fromStatus toStatus : GameStatus) : Bool :=
  decide (toStatus ∈ statusTransitionTargets fromStatus) ||
    decide (fromStatus = toStatus)

/-- validateStateTransition: status graph, HP bounds, combo, accuracy and
time checks, in the push order of the source. -/
def validateStateTransition (fromState toState : GameState) :
    List StateError :=
  (if isValidStatusTransition fromState.status toState.status then []
   else [.invalidStatus fromState.status toState.status]) ++
  (if toState.hp.player < 0 ∨ toState.hp.player > toState.hp.playerMax then
    [.playerHpOut toState.hp.player] else []) ++
  (if toState.hp.enemy < 0 ∨ toState.hp.enemy > toState.hp.enemyMax then
    [.enemyHpOut toState.hp.enemy] else []) ++
  (if toState.combo < 0 then [.negativeCombo toState.combo] else []) ++
  (if toState.stats.accuracy < 0 ∨ toState.stats.accuracy > 1 then
    [.accuracyOut toState.stats.accuracy] else []) ++
  (if toState.timeLeft < 0 then [.negativeTime toState.timeLeft] else [])

/-- validateWords: required-property checks on a word list. -/
def validateWords (words : List Word) : List StateError :=
  words.foldl
    (fun errs word =>
      errs ++
      (if word.text.length = 0 then [.emptyWordText word.id] else []) ++
      (if word.level.val < 1 ∨ word.level.val > 5 then
        [.wordLevelOut word.level.val] else []) ++
      (if word.length ≠ (word.text.length : ℚ) then
        [.wordLengthMismatch word.text.length word.length] else []))
    []

/-- recordStateTransition: append to the bounded history ring, evicting the
oldest entry beyond the configured maximum. -/
def recordHistory (history : List StateTransition) (maxSize : ℕ)
    (tr : StateTransition) : List StateTransition :=
  let h := history ++ [tr]
  if h.length > maxSize then h.tail else h

/-- updateState: merge the partial update, validate the transition when
enabled, and commit plus record history only when valid; a rejected update
leaves the manager untouched and returns the itemized errors.  Subscriber
notification and the state-change event are side effects outside this
state model.  Date.now() is passed as the now parameter. -/
def GameStateManager.updateState (m : GameStateManager) (updates : GSUpdate)
    (trigger : String) (now : ℚ) : GameStateManager × ValidationResult :=
  let previousState := m.currentState
  let newState := mergeState previousState updates
  let validationErrors :=
    if m.options.validateTransitions then
      validateStateTransition previousState newState
    else []
  if validationErrors ≠ [] then
    (m, { valid := false, errors := validationErrors })
  else
    let history :=
      if m.options.enableHistory then
        recordHistory m.stateHistory m.options.maxHistorySize
          { fromState := previousState, toState := newState,
            timestamp := now, trigger := trigger, valid := true }
      else m.stateHistory
    ({ m with currentState := newState, stateHistory := history },
     { valid := true, errors := [] })

/-- diffStates: field-by-field difference (JSON.stringify comparison in
the source corresponds to structural equality here). -/
def diffStates (oldState newState : GameState) : GSUpdate :=
  { status := if oldState.status ≠ newState.status then some newState.status else none
    hp := if oldState.hp ≠ newState.hp then some newState.hp else none
    currentWords :=
      if oldState.currentWords ≠ newState.currentWords then
        some newState.currentWords else none
    locked := if oldState.locked ≠ newState.locked then some newState.locked else none
    combo := if oldState.combo ≠ newState.combo then some newState.combo else none
    stats := if oldState.stats ≠ newState.stats then some newState.stats else none
    timeLeft :=
      if oldState.timeLeft ≠ newState.timeLeft then some newState.timeLeft else none
    round := if oldState.round ≠ newState.round then some newState.round else none }

/-- batchUpdate: validates every update against a running hypothetical
state (collecting trigger-tagged errors, skipping invalid steps), then
commits the cumulative difference all-or-nothing through updateState. -/
def GameStateManager.batchUpdate (m : GameStateManager)
    (updates : List (GSUpdate × String)) (now : ℚ) :
    GameStateManager × ValidationResult :=
  let step := fun (acc : GameState × List StateError) (p : GSUpdate × String) =>
    let testState := mergeState acc.1 p.1
    let v := validateStateTransition acc.1 testState
    if v ≠ [] then (acc.1, acc.2 ++ v.map (fun e => StateError.tagged p.2 e))
    else (testState, acc.2)
  let folded := updates.foldl step (m.currentState, [])
  if folded.2 ≠ [] then (m, { valid := false, errors := folded.2 })
  else m.updateState (diffStates m.currentState folded.1) "batch-update" now

/-- Partial<HealthPoints>. -/
structure HPUpdate where
  player : Option ℚ
  enemy : Option ℚ
  playerMax : Option ℚ
  enemyMax : Option ℚ
deriving DecidableEq, Repr

/-- updateHP: merge, clamp player and enemy into [0, max], and update. -/
def GameStateManager.updateHP (m : GameStateManager) (updates : HPUpdate)
    (now : ℚ) : GameStateManager × ValidationResult :=
  let hp0 : HealthPoints :=
    { player := updates.player.getD m.currentState.hp.player
      enemy := updates.enemy.getD m.currentState.hp.enemy
      playerMax := updates.playerMax.getD m.currentState.hp.playerMax
      enemyMax := updates.enemyMax.getD m.currentState.hp.enemyMax }
  let newHP : HealthPoints :=
    { hp0 with
      player := max 0 (min hp0.playerMax hp0.player)
      enemy := max 0 (min hp0.enemyMax hp0.enemy) }
  m.updateState { noUpdate with hp := some newHP } "hp-update" now

/-- Partial<GameStats>. -/
structure StatsUpdate where
  wpm : Option ℚ
  accuracy : Option ℚ
  totalDamage : Option ℚ
  totalHealing : Option ℚ
  attackCount : Option ℚ
  healCount : Option ℚ
  guardCount : Option ℚ
  maxCombo : Option ℚ
  wordsCompleted : Option ℚ
deriving DecidableEq, Repr

/-- updateStats: merge, floor every numeric field at 0, clamp accuracy to
[0,1] when it was part of the update, and update. -/
def GameStateManager.updateStats (m : GameStateManager) (updates : StatsUpdate)
    (now : ℚ) : GameStateManager × ValidationResult :=
  let s := m.currentState.stats
  let merged : GameStats :=
    { wpm := updates.wpm.getD s.wpm
      accuracy := updates.accuracy.getD s.accuracy
      totalDamage := updates.totalDamage.getD s.totalDamage
      totalHealing := updates.totalHealing.getD s.totalHealing
      attackCount := updates.attackCount.getD s.attackCount
      healCount := updates.healCount.getD s.healCount
      guardCount := updates.guardCount.getD s.guardCount
      maxCombo := updates.maxCombo.getD s.maxCombo
      wordsCompleted := updates.wordsCompleted.getD s.wordsCompleted }
  let floored : GameStats :=
    { wpm := max 0 merged.wpm
      accuracy := max 0 merged.accuracy
      totalDamage := max 0 merged.totalDamage
      totalHealing := max 0 merged.totalHealing
      attackCount := max 0 merged.attackCount
      healCount := max 0 merged.healCount
      guardCount := max 0 merged.guardCount
      maxCombo := max 0 merged.maxCombo
      wordsCompleted := max 0 merged.wordsCompleted }
  let newStats : GameStats :=
    if updates.accuracy.isSome then
      { floored with accuracy := max 0 (min 1 floored.accuracy) }
    else floored
  m.updateState { noUpdate with stats := some newStats } "stats-update" now

/-- applyActionResult: route by action type to adjust HP and the counters,
carry the result's combo into the state, and roll forward max combo. -/
def GameStateManager.applyActionResult (m : GameStateManager)
    (result : ActionResult) (now : ℚ) : GameStateManager × ValidationResult :=
  let s := m.currentState
  let stats0 : GameStats := { s.stats with wordsCompleted := s.stats.wordsCompleted + 1 }
  let (hpUpdate, stats1, trigger) :=
    match result with
    | .attack r =>
        (some { s.hp with enemy := max 0 (s.hp.enemy - r.value) },
         { stats0 with attackCount := s.stats.attackCount + 1,
                       totalDamage := s.stats.totalDamage + r.value },
         "attack-result")
    | .heal r =>
        (some { s.hp with player := min s.hp.playerMax (s.hp.player + r.value) },
         { stats0 with healCount := s.stats.healCount + 1,
                       totalHealing := s.stats.totalHealing + r.value },
         "heal-result")
    | .guard _ =>
        (none, { stats0 with guardCount := s.stats.guardCount + 1 },
         "guard-result")
  let stats2 :=
    if result.combo > s.stats.maxCombo then
      { stats1 with maxCombo := result.combo }
    else stats1
  m.updateState
    { noUpdate with combo := some result.combo, stats := some stats2,
                    hp := hpUpdate }
    trigger now

/-- setWordLock: no-op when already at the target lock value, otherwise a
validated transition. -/
def GameStateManager.setWordLock (m : GameStateManager)
    (lockType : Option LockType) (now : ℚ) :
    GameStateManager × ValidationResult :=
  if m.currentState.locked = lockType then (m, { valid := true, errors := [] })
  else
    let trigger :=
      match lockType with
      | some .heal => "lock-heal"
      | some .attack => "lock-attack"
      | some .guard => "lock-guard"
      | none => "unlock-word"
    m.updateState { noUpdate with locked := some lockType } trigger now

/-- Partial<CurrentWords> (the guard value itself is the optional third
word). -/
structure WordsUpdate where
  heal : Option Word
  attack : Option Word
  guard : Option Word
deriving DecidableEq, Repr

/-- updateCurrentWords: merge, validate every present word, and update. -/
def GameStateManager.updateCurrentWords (m : GameStateManager)
    (words : WordsUpdate) (now : ℚ) : GameStateManager × ValidationResult :=
  let cur := m.currentState.currentWords
  let newWords : CurrentWords :=
    { heal := words.heal.getD cur.heal
      attack := words.attack.getD cur.attack
      guard := match words.guard with | some w => some w | none => cur.guard }
  let errs := validateWords
    ([newWords.heal, newWords.attack] ++ newWords.guard.toList)
  if errs ≠ [] then (m, { valid := false, errors := errs })
  else m.updateState { noUpdate with currentWords := some newWords }
    "update-words" now

/- ===========================================================================
   Word manager (wordManager.ts)
   =========================================================================== -/

/-- WordSelection record. -/
structure WordSelection where
  heal : Word
  attack : Word
  guard : Option Word
deriving DecidableEq, Repr

/-- WordSelectionOptions record. -/
structure WordSelectionOptions where
  difficulty : GameDifficulty
  playerLevel : ℚ
  round : ℚ
  timeRemaining : ℚ
  previousWords : List Word
  avoidRecentWords : Bool
deriving DecidableEq, Repr

/-- WordPoolConfig record.  The level bounds are plain numbers: the source
computes them with Math.max / Math.min arithmetic before casting. -/
structure WordPoolConfig where
  minLevel : ℚ
  maxLevel : ℚ
  categoryWeights : List (String × ℚ)
  lengthMin : ℚ
  lengthMax : ℚ
  excludeIds : List String
deriving DecidableEq, Repr

/-- Per-action-type selection preferences (WORD_TYPE_PREFERENCES values). -/
structure TypePreferences where
  preferShorter : Bool
  levelBias : ℚ
  categoryPreferences : List (String × ℚ)
deriving DecidableEq, Repr

/-- WORD_TYPE_PREFERENCES table. -/
def WORD_TYPE_PREFERENCES : ActionType → TypePreferences
  | .HEAL =>
      { preferShorter := true, levelBias := -0.5,
        categoryPreferences :=
          [("common", 1.2), ("medical", 1.5), ("basic", 1.3)] }
  | .ATTACK =>
      { preferShorter := false, levelBias := 0.3,
        categoryPreferences :=
          [("action", 1.4), ("power", 1.3), ("advanced", 1.2)] }
  | .GUARD =>
      { preferShorter := false, levelBias := 0.0,
        categoryPreferences :=
          [("defense", 1.5), ("shield", 1.4), ("protect", 1.3)] }

/-- DIFFICULTY_LEVEL_RANGES table (numeric bounds). -/
def DIFFICULTY_LEVEL_RANGES : GameDifficulty → ℚ × ℚ
  | .EASY => (1, 3) | .NORMAL => (2, 4) | .HARD => (3, 5)

/-- DIFFICULTY_LENGTH_RANGES table. -/
def DIFFICULTY_LENGTH_RANGES : GameDifficulty → ℚ × ℚ
  | .EASY => (3, 8) | .NORMAL => (4, 12) | .HARD => (5, 15)

/-- Mutable state of the WordManager class. -/
structure WordManager where
  wordPool : List Word
  recentWords : List (String × ℚ)
  currentSelection : Option WordSelection
  lockState : Option LockType
  lockStartTime : ℚ
deriving Repr

/-- validateWordPool (run by the constructor): reject an empty pool or a
word with a missing id/text (the numeric level check of the source cannot
fire with the 1..5 level type); auto-correct a length field that does not
match the text length. -/
def validateWordPool (words : List Word) : Except String (List Word) :=
  if words.length = 0 then .error ("WordManager: Empty word pool")
  else
    words.mapM (fun w =>
      if w.id = "" ∨ w.text.length = 0 then
        .error ("WordManager: Invalid word structure")
      else if w.level.val < 1 ∨ w.level.val > 5 then
        .error ("WordManager: Invalid word level")
      else if w.length ≠ (w.text.length : ℚ) then
        .ok { w with length := (w.text.length : ℚ) }
      else .ok w)

/-- new WordManager(sessionSeed): copy the seed words and validate the
pool (throwing on construction errors). -/
def WordManager.make (seedWords : List Word) : Except String WordManager := do
  let pool ← validateWordPool seedWords
  .ok { wordPool := pool, recentWords := [], currentSelection := none,
        lockState := none, lockStartTime := 0 }

/-- calculateCategoryWeights: base weights adjusted by difficulty. -/
def calculateCategoryWeights (options : WordSelectionOptions) :
    List (String × ℚ) :=
  match options.difficulty with
  | .EASY => [("basic", 1.5), ("common", 1.2), ("advanced", 1.0)]
  | .NORMAL => [("basic", 1.0), ("common", 1.0), ("advanced", 1.0)]
  | .HARD =>
      [("basic", 1.0), ("common", 1.0), ("advanced", 1.3), ("expert", 1.2)]

/-- createWordPoolConfig: difficulty base ranges shifted by player level
(floor pl/5 on the minimum) and round (floor round/3 on the maximum),
clamped to [1,5]; recency exclusions for words used in the last 3 rounds. -/
def createWordPoolConfig (m : WordManager) (options : WordSelectionOptions) :
    WordPoolConfig :=
  let difficultyRange := DIFFICULTY_LEVEL_RANGES options.difficulty
  let lengthRange := DIFFICULTY_LENGTH_RANGES options.difficulty
  let levelAdjustment : ℚ := ((⌊options.playerLevel / 5⌋ : ℤ) : ℚ)
  let roundAdjustment : ℚ := ((⌊options.round / 3⌋ : ℤ) : ℚ)
  let excludeIds :=
    if options.avoidRecentWords then
      (m.recentWords.filter
        (fun p => options.round - p.2 < 3)).map Prod.fst
    else []
  { minLevel := max 1 (difficultyRange.1 + levelAdjustment)
    maxLevel := min 5 (difficultyRange.2 + roundAdjustment)
    categoryWeights := calculateCategoryWeights options
    lengthMin := lengthRange.1
    lengthMax := lengthRange.2
    excludeIds := excludeIds }

/-- filterWordPool: level range, length range and recency exclusion. -/
def filterWordPool (m : WordManager) (config : WordPoolConfig) : List Word :=
  m.wordPool.filter (fun word =>
    !(word.level.val < config.minLevel || word.level.val > config.maxLevel) &&
    !(word.length < config.lengthMin || word.length > config.lengthMax) &&
    !(config.excludeIds.contains word.id))

/-- scoreWordForType: base 100 plus length and level preferences, category
multiplier, recency damping (the source mixes a Date.now() timestamp with
round numbers here; the timestamp is the now parameter), and a ±20% random
jitter. -/
def scoreWordForType (m : WordManager) (word : Word) (_type : ActionType)
    (preferences : TypePreferences) (now : ℚ) (rng : Rng) : ℚ × Rng :=
  let s1 : ℚ := 100 +
    (if preferences.preferShorter then max 0 (15 - word.length) * 2
     else min 15 word.length * 1.5)
  let s2 := s1 + (word.level.val + preferences.levelBias) * 10
  let s3 :=
    match word.category with
    | some c =>
        if c ≠ "" then
          match preferences.categoryPreferences.lookup c with
          | some w => if w ≠ 0 then s2 * w else s2
          | none => s2
        else s2
    | none => s2
  let s4 :=
    if (m.recentWords.lookup word.id).isSome then
      let roundsAgo := now - ((m.recentWords.lookup word.id).getD 0)
      s3 * max 0.3 (1.0 - (5 - roundsAgo) * 0.1)
    else s3
  let (r, rng') := rng.next
  (s4 * (0.8 + r * 0.4), rng')

/-- Stable descending insertion into a score-sorted list (JavaScript
Array.sort with comparator (a,b) => b.score − a.score). -/
def insertByScoreDesc (x : Word × ℚ) : List (Word × ℚ) → List (Word × ℚ)
  | [] => [x]
  | y :: ys =>
      if y.2 ≥ x.2 then y :: insertByScoreDesc x ys else x :: y :: ys

/-- Stable descending sort by score. -/
def sortByScoreDesc (l : List (Word × ℚ)) : List (Word × ℚ) :=
  l.foldr insertByScoreDesc []

/-- Linear scan of weightedRandomSelect: subtract each weight from the
scaled draw and stop at the first non-positive remainder. -/
def weightedScan (pairs : List (Word × ℚ)) (rand : ℚ) : Option Word :=
  match pairs with
  | [] => none
  | (item, w) :: rest =>
      if rand - w ≤ 0 then some item else weightedScan rest (rand - w)

/-- weightedRandomSelect: throws 'Invalid weighted selection parameters'
on mismatched or empty inputs; otherwise a weight-proportional draw with
the last item as fallback. -/
def weightedRandomSelect (items : List Word) (weights : List ℚ)
    (rng : Rng) : Except String (Word × Rng) :=
  match items with
  | [] => .error ("Invalid weighted selection parameters")
  | item0 :: _ =>
      if items.length ≠ weights.length then
        .error ("Invalid weighted selection parameters")
      else
        let totalWeight := weights.sum
        let (r, rng') := rng.next
        let rand := r * totalWeight
        .ok ((weightedScan (items.zip weights) rand).getD
          ((items.getLast?).getD item0), rng')

/-- Score every candidate, threading the random stream in pool order. -/
def scoreCandidates (m : WordManager) (candidates : List Word)
    (type : ActionType) (preferences : TypePreferences) (now : ℚ)
    (rng : Rng) : List (Word × ℚ) × Rng :=
  match candidates with
  | [] => ([], rng)
  | w :: rest =>
      let (s, rng') := scoreWordForType m w type preferences now rng
      let (tail, rng'') := scoreCandidates m rest type preferences now rng'
      ((w, s) :: tail, rng'')

/-- selectWordForType: filter, score, sort descending, keep the top ~30%
(at least 5), and draw one by score-weighted random selection (throwing
when no candidate survives the filter). -/
def selectWordForType (m : WordManager) (type : ActionType)
    (config : WordPoolConfig) (now : ℚ) (rng : Rng) :
    Except String (Word × Rng) :=
  let candidates := filterWordPool m config
  let typePrefs := WORD_TYPE_PREFERENCES type
  let (scoredCandidates, rng') := scoreCandidates m candidates type typePrefs now rng
  let sorted := sortByScoreDesc scoredCandidates
  let takeCount : ℕ :=
    (⌊max (5 : ℚ) ((sorted.length : ℚ) * 0.3)⌋ : ℤ).toNat
  let topCandidates := sorted.take takeCount
  weightedRandomSelect (topCandidates.map Prod.fst)
    (topCandidates.map Prod.snd) rng'

/-- shouldIncludeGuardWord: always on HARD, from round 3, from player
level 5, otherwise a 30% chance on NORMAL (the draw is consumed only on
that branch, as in the source). -/
def shouldIncludeGuardWord (options : WordSelectionOptions) (rng : Rng) :
    Bool × Rng :=
  if options.difficulty = .HARD then (true, rng)
  else if options.round ≥ 3 then (true, rng)
  else if options.playerLevel ≥ 5 then (true, rng)
  else if options.difficulty = .NORMAL then
    let (r, rng') := rng.next
    (decide (r < 0.3), rng')
  else (false, rng)

/-- updateRecentWords: record this round for each selected word, then
prune entries older than 10 rounds. -/
def updateRecentWords (recent : List (String × ℚ)) (selection : WordSelection)
    (round : ℚ) : List (String × ℚ) :=
  let withSel :=
    (selection.guard.toList.foldl
      (fun acc w => jsObjSet acc w.id round)
      (jsObjSet (jsObjSet recent selection.heal.id round)
        selection.attack.id round))
  withSel.filter (fun p => ¬(p.2 < round - 10))

/-- selectWords: heal and attack words (plus a conditional guard word) per
round; records the selection and the recency map.  Throws out of
weightedRandomSelect when the eligibility filter leaves no candidate. -/
def WordManager.selectWords (m : WordManager)
    (options : WordSelectionOptions) (rng : Rng) (now : ℚ) :
    Except String (WordSelection × WordManager × Rng) := do
  let config := createWordPoolConfig m options
  let (healWord, rng1) ← selectWordForType m .HEAL config now rng
  let (attackWord, rng2) ← selectWordForType m .ATTACK config now rng1
  let (includeGuard, rng3) := shouldIncludeGuardWord options rng2
  let (guardWord, rng4) ←
    if includeGuard then do
      let (g, r) ← selectWordForType m .GUARD config now rng3
      pure (some g, r)
    else pure ((none : Option Word), rng3)
  let selection : WordSelection :=
    { heal := healWord, attack := attackWord, guard := guardWord }
  let m' :=
    { m with currentSelection := some selection,
             recentWords := updateRecentWords m.recentWords selection
               options.round }
  .ok (selection, m', rng4)

/- ===========================================================================
   Orchestrator (PhaserAdapter.ts on top of GameAdapter.ts)
   =========================================================================== -/

/-- Domain events emitted on the adapter's own event channel (this.emit),
with the payload fields the game logic produces.  Rendering-only payload
parts are omitted. -/
inductive GEvent
  | stateChange
  | wordStarted
  | wordLocked (wordType : LockType)
  | wordUnlocked
  | wordCompleted
  | wordFailed (reason : String)
  | actionExecuted
  | damageDealt (damage : ℚ) (critical : Bool)
  | healingApplied (healing : ℚ) (critical : Bool)
  | guardExecuted (blocked : Bool) (damageBlocked : ℚ)
  | comboChanged (oldCombo newCombo : ℚ)
deriving DecidableEq, Repr

/-- The construction-time configuration the adapter logic reads. -/
structure GameConfigLite where
  difficulty : GameDifficulty
  durationSec : ℚ
deriving DecidableEq, Repr

/-- Mutable state of the PhaserAdapter (rendering, resize and performance
concerns are outside the model).  state is the adapter's own snapshot
(GameAdapter.this.state); the state manager keeps its separate snapshot,
synchronised through the subscription installed in setupEventListeners. -/
structure PhaserAdapter where
  state : GameState
  stateManager : GameStateManager
  inputBuffer : Str
  currentTypingSession : Option TypingSession
  inputValidator : InputValidator
  wordManager : Option WordManager
  config : GameConfigLite
  events : List GEvent
deriving Repr

/-- this.emit on the adapter channel: append to the event log. -/
def PhaserAdapter.emit (a : PhaserAdapter) (e : GEvent) : PhaserAdapter :=
  { a with events := a.events ++ [e] }

/-- GameAdapter.setState: merge into the adapter's own snapshot and emit a
state-change event (the adapter has no external state subscribers in this
model). -/
def PhaserAdapter.setState (a : PhaserAdapter) (u : GSUpdate) : PhaserAdapter :=
  { a with state := mergeState a.state u,
           events := a.events ++ [GEvent.stateChange] }

/-- Run a state-manager operation; on commit the subscription from
setupEventListeners copies the manager's snapshot into this.state (plain
assignment, no adapter event). -/
def PhaserAdapter.runMgr (a : PhaserAdapter)
    (f : GameStateManager → GameStateManager × ValidationResult) :
    PhaserAdapter × ValidationResult :=
  let (m', r) := f a.stateManager
  if r.valid then
    ({ a with stateManager := m', state := m'.currentState }, r)
  else ({ a with stateManager := m' }, r)

/-- GameAdapter.updateCombo: set the combo (rolling max-combo forward) and
emit combo-changed, as a no-op when unchanged. -/
def PhaserAdapter.updateCombo (a : PhaserAdapter) (newCombo : ℚ) :
    PhaserAdapter :=
  let oldCombo := a.state.combo
  if newCombo ≠ oldCombo then
    let a := a.setState
      { noUpdate with
        combo := some newCombo,
        stats := some { a.state.stats with
          maxCombo := max a.state.stats.maxCombo newCombo } }
    a.emit (.comboChanged oldCombo newCombo)
  else a

/-- isInputValidForWord: case-insensitive prefix match (a word with empty
text is rejected by the falsy check of the source). -/
def isInputValidForWord (input : Str) (word : Word) : Bool :=
  if word.text.length = 0 then false
  else jsStartsWith (jsToLower word.text) (jsToLower input)

/-- Outcome of determineLockFromInput: the three-way record of the source
({shouldLock, wordType, isIncorrect}) as a closed decision. -/
inductive LockDecision
  | lockTo (t : LockType)
  | ambiguous
  | incorrect
deriving DecidableEq, Repr

/-- determineLockFromInput: lock on a unique prefix match, stay ambiguous
when both candidates match, report incorrect when neither does. -/
def determineLockFromInput (input : Str) (cw : CurrentWords) : LockDecision :=
  let healMatches := isInputValidForWord input cw.heal
  let attackMatches := isInputValidForWord input cw.attack
  if healMatches && !attackMatches then .lockTo .heal
  else if attackMatches && !healMatches then .lockTo .attack
  else if healMatches && attackMatches then .ambiguous
  else .incorrect

/-- lockWord: adapter-local lock (the state manager is not informed). -/
def PhaserAdapter.lockWord (a : PhaserAdapter) (wordType : LockType) :
    PhaserAdapter :=
  a.setState { noUpdate with locked := some (some wordType) }

/-- unlockWords: clear the adapter-local lock and emit word-unlocked. -/
def PhaserAdapter.unlockWords (a : PhaserAdapter) : PhaserAdapter :=
  (a.setState { noUpdate with locked := some none }).emit .wordUnlocked

/-- resetComboAndUnlock: combo to 0, unlock, clear input and session, emit
word-failed. -/
def PhaserAdapter.resetComboAndUnlock (a : PhaserAdapter) (reason : String) :
    PhaserAdapter :=
  let a := a.updateCombo 0
  let a := a.unlockWords
  let a := { a with inputBuffer := [], currentTypingSession := none }
  a.emit (.wordFailed reason)

/-- getCurrentTargetWord: the locked word, defaulting to the attack word
when nothing is locked. -/
def PhaserAdapter.getCurrentTargetWord (a : PhaserAdapter) : Option Word :=
  match a.state.locked with
  | some .heal => some a.state.currentWords.heal
  | some .attack => some a.state.currentWords.attack
  | some .guard => a.state.currentWords.guard
  | none => some a.state.currentWords.attack

/-- getActionTypeForCurrentWord: the locked type, defaulting to attack. -/
def PhaserAdapter.getActionTypeForCurrentWord (a : PhaserAdapter) :
    ActionType :=
  match a.state.locked with
  | some .heal => .HEAL
  | some .attack => .ATTACK
  | some .guard => .GUARD
  | none => .ATTACK

/-- The CombatConfig the adapter builds for an action (player level is the
hard-coded 1 of the source). -/
def PhaserAdapter.combatConfig (a : PhaserAdapter) : CombatConfig :=
  { difficulty := a.config.difficulty, playerLevel := 1,
    combo := a.state.combo, timeRemaining := a.state.timeLeft,
    totalTime := a.config.durationSec }

/-- executeAttack: combat calculation (consuming the critical draw),
result creation with combo before + 1 (or + 2 on a critical), state
application, combo update and events. -/
def PhaserAdapter.executeAttack (a : PhaserAdapter) (wordData : CompletedWord)
    (now : ℚ) (rng : Rng) : PhaserAdapter × AttackResult × Rng :=
  let (r, rng') := rng.next
  let calculation := calculateAttackDamage wordData a.combatConfig r
  let result := createAttackResult wordData calculation a.state.hp.enemy
    (a.state.combo + (if calculation.isCritical then 2 else 1))
  let (a, _v) := a.runMgr (fun m => m.applyActionResult (.attack result) now)
  let a := a.updateCombo result.combo
  let a := a.emit .actionExecuted
  let a := a.emit (.damageDealt result.damageDealt result.critical)
  (a, result, rng')

/-- executeHeal: the healing counterpart of executeAttack. -/
def PhaserAdapter.executeHeal (a : PhaserAdapter) (wordData : CompletedWord)
    (now : ℚ) (rng : Rng) : PhaserAdapter × HealResult × Rng :=
  let (r, rng') := rng.next
  let calculation := calculateHealingAmount wordData a.combatConfig r
  let result := createHealResult wordData calculation a.state.hp.player
    a.state.hp.playerMax
    (a.state.combo + (if calculation.isCritical then 2 else 1))
  let (a, _v) := a.runMgr (fun m => m.applyActionResult (.heal result) now)
  let a := a.updateCombo result.combo
  let a := a.emit .actionExecuted
  let a := a.emit (.healingApplied result.healingDone result.critical)
  (a, result, rng')

/-- executeGuard: guard calculation against the hard-coded incoming damage
of 25 (no random draw is consumed), state application, combo update,
remaining-damage application through updateHP, and events. -/
def PhaserAdapter.executeGuard (a : PhaserAdapter) (wordData : CompletedWord)
    (now : ℚ) (rng : Rng) : PhaserAdapter × GuardResult × Rng :=
  let incomingDamage : ℚ := 25
  let calculation := calculateGuardEffectiveness wordData incomingDamage
    a.combatConfig
  let result := createGuardResult wordData calculation incomingDamage
    (a.state.combo + (if calculation.isCritical then 2 else 1))
  let (a, _v) := a.runMgr (fun m => m.applyActionResult (.guard result) now)
  let a := a.updateCombo result.combo
  let a :=
    if result.damageReceived > 0 then
      let newPlayerHp := max 0 (a.state.hp.player - result.damageReceived)
      (a.runMgr (fun m => m.updateHP
        { player := some newPlayerHp, enemy := none, playerMax := none,
          enemyMax := none } now)).1
    else a
  let a := a.emit .actionExecuted
  let a := a.emit (.guardExecuted result.blocked result.damageBlocked)
  (a, result, rng)

/-- The empty guard placeholder word selectNewWords injects for
compatibility. -/
def emptyGuardWord : Word :=
  { id := "", text := [], level := .l1, category := none, length := 0,
    expectedWPM := none }

/-- selectNewWords: draw a fresh heal/attack pair from the word manager,
push it through the state manager (whose validation verdict the source
ignores), clear the pending session and emit word-started.  A selection
exception propagates in the Option String channel. -/
def PhaserAdapter.selectNewWords (a : PhaserAdapter) (now : ℚ) (rng : Rng) :
    PhaserAdapter × Rng × Option String :=
  match a.wordManager with
  | none => (a, rng, none)
  | some wm =>
      let options : WordSelectionOptions :=
        { difficulty := a.config.difficulty, playerLevel := 1,
          round := a.state.round, timeRemaining := a.state.timeLeft,
          previousWords := [], avoidRecentWords := true }
      match wm.selectWords options rng now with
      | .error e => (a, rng, some e)
      | .ok (selection, wm', rng') =>
          let words : WordsUpdate :=
            { heal := some selection.heal, attack := some selection.attack,
              guard := some emptyGuardWord }
          let a := { a with wordManager := some wm' }
          let (a, _v) := a.runMgr (fun m => m.updateCurrentWords words now)
          let a := { a with currentTypingSession := none }
          let a := a.emit .wordStarted
          (a, rng', none)

/-- completeCurrentWord: finalize the pending session into a
CompletedWord, execute the action resolved from the lock, clear
input/session, unlock, and reselect words; word-completed is emitted only
when reselection does not throw.  A missing session makes the whole call
a no-op. -/
def PhaserAdapter.completeCurrentWord (a : PhaserAdapter) (now : ℚ)
    (rng : Rng) : PhaserAdapter × Rng × Option String :=
  match a.currentTypingSession with
  | none => (a, rng, none)
  | some session =>
      let completedSession := completeTypingSession session now
      let (metrics, validator') :=
        validateCompletedWord a.inputValidator completedSession
      let a := { a with inputValidator := validator' }
      let completedWord := createCompletedWord completedSession metrics
      let actionType := a.getActionTypeForCurrentWord
      let (a, rng') :=
        match actionType with
        | .ATTACK =>
            let (a, _res, rng') := a.executeAttack completedWord now rng
            (a, rng')
        | .HEAL =>
            let (a, _res, rng') := a.executeHeal completedWord now rng
            (a, rng')
        | .GUARD =>
            let (a, _res, rng') := a.executeGuard completedWord now rng
            (a, rng')
      let a := { a with inputBuffer := [], currentTypingSession := none }
      let a := a.unlockWords
      let (a, rng'', exc) := a.selectNewWords now rng'
      match exc with
      | some e => (a, rng'', some e)
      | none => (a.emit .wordCompleted, rng'', none)

/-- The word the lock refers to inside the locked branch of
handleCharacterInput (currentWords[locked]). -/
def lockedWordOf (cw : CurrentWords) : LockType → Option Word
  | .heal => some cw.heal
  | .attack => some cw.attack
  | .guard => cw.guard

/-- handleCharacterInput: grow the buffer; in the unlocked state resolve
the lock from the prefix match against both candidates; in the locked
state accept only a valid prefix of the locked word (feeding the typing
session) and reset otherwise; finally finalize on an exact match of the
target word. -/
def PhaserAdapter.handleCharacterInput (a : PhaserAdapter) (key : Char)
    (now : ℚ) (rng : Rng) : PhaserAdapter × Rng × Option String :=
  let newInput := a.inputBuffer ++ [key]
  match a.state.locked with
  | none =>
      (match determineLockFromInput newInput a.state.currentWords with
      | .lockTo wordType =>
          let a := a.lockWord wordType
          let a := { a with inputBuffer := newInput }
          let lockedWord := (lockedWordOf a.state.currentWords wordType).getD
            a.state.currentWords.attack
          let actionType : ActionType :=
            match wordType with
            | .heal => .HEAL | .attack => .ATTACK | .guard => .GUARD
          let freshSession := createTypingSession lockedWord actionType now
          let a := { a with currentTypingSession := some freshSession }
          let a := a.emit (.wordLocked wordType)
          (match a.getCurrentTargetWord with
          | some w =>
              if a.inputBuffer = w.text then a.completeCurrentWord now rng
              else (a, rng, none)
          | none => (a, rng, none))
      | .incorrect => (a.resetComboAndUnlock "Invalid character input", rng, none)
      | .ambiguous =>
          let a := { a with inputBuffer := newInput }
          (match a.getCurrentTargetWord with
          | some w =>
              if a.inputBuffer = w.text then a.completeCurrentWord now rng
              else (a, rng, none)
          | none => (a, rng, none)))
  | some lockType =>
      match lockedWordOf a.state.currentWords lockType with
      | some lockedWord =>
          if isInputValidForWord newInput lockedWord then
            let a := { a with inputBuffer := newInput }
            let a :=
              match a.currentTypingSession with
              | some session =>
                  let session' :=
                    updateTypingSession session (Key.ch key) a.inputBuffer now
                  { a with currentTypingSession := some session' }
              | none => a
            (match a.getCurrentTargetWord with
            | some w =>
                if a.inputBuffer = w.text then a.completeCurrentWord now rng
                else (a, rng, none)
            | none => (a, rng, none))
          else
            (a.resetComboAndUnlock "Incorrect input for locked word", rng, none)
      | none =>
          (a.resetComboAndUnlock "Incorrect input for locked word", rng, none)

/-- handleBackspace: shorten the buffer and feed the correction to the
pending session. -/
def PhaserAdapter.handleBackspace (a : PhaserAdapter) (now : ℚ) :
    PhaserAdapter :=
  if a.inputBuffer.length > 0 then
    let a := { a with inputBuffer := a.inputBuffer.dropLast }
    match a.currentTypingSession with
    | some session =>
        let session' :=
          updateTypingSession session Key.backspace a.inputBuffer now
        { a with currentTypingSession := some session' }
    | none => a
  else a

/-- handleEnterKey of the production adapter: completes whenever a target
word exists and the buffer is non-empty (no exact-match check). -/
def PhaserAdapter.handleEnterKey (a : PhaserAdapter) (now : ℚ) (rng : Rng) :
    PhaserAdapter × Rng × Option String :=
  match a.getCurrentTargetWord with
  | some _ =>
      if a.inputBuffer.length > 0 then a.completeCurrentWord now rng
      else (a, rng, none)
  | none => (a, rng, none)

/- ===========================================================================
   Shared lemmas
   =========================================================================== -/

/-- Half-up rounding is monotone. -/
lemma jsRound_mono {a b : ℚ} (h : a ≤ b) : jsRound a ≤ jsRound b :=
  Int.floor_le_floor (by linarith)

/-- Half-up rounding is within a half of its argument (upper bound). -/
lemma jsRound_le (a : ℚ) : (jsRound a : ℚ) ≤ a + 1/2 := by
  unfold jsRound
  exact Int.floor_le (a + 1/2)

/-- Half-up rounding is within a half of its argument (lower bound). -/
lemma le_jsRound (a : ℚ) : a - 1/2 ≤ (jsRound a : ℚ) := by
  unfold jsRound
  have := Int.lt_floor_add_one (a + 1/2)
  linarith

/-- Non-positive inputs round to a non-positive integer. -/
lemma jsRound_nonpos {a : ℚ} (h : a ≤ 0) : jsRound a ≤ 0 := by
  have : jsRound a ≤ jsRound 0 := jsRound_mono h
  have h0 : jsRound 0 = 0 := by
    unfold jsRound
    norm_num
  omega

/-- The attack damage pipeline floors its result at 1. -/
lemma one_le_attack_finalValue (cw : CompletedWord) (config : CombatConfig)
    (rand : ℚ) : 1 ≤ (calculateAttackDamage cw config rand).finalValue := by
  show (1:ℚ) ≤ ((max 1 (jsRound _) : ℤ) : ℚ)
  exact_mod_cast le_max_left 1 _

/-- The healing pipeline floors its result at 1. -/
lemma one_le_heal_finalValue (cw : CompletedWord) (config : CombatConfig)
    (rand : ℚ) : 1 ≤ (calculateHealingAmount cw config rand).finalValue := by
  show (1:ℚ) ≤ ((max 1 (jsRound _) : ℤ) : ℚ)
  exact_mod_cast le_max_left 1 _

/- ===========================================================================
   Claim theorems
   =========================================================================== -/

/-- Claim C7: for every CompletedWord and every CombatConfig (arbitrarily
poor accuracy, wpm, combo, level, and difficulty), calculateAttackDamage
and calculateHealingAmount return a finalValue that is at least 1. -/
theorem claim_C7 (cw : CompletedWord) (config : CombatConfig) (rand : ℚ) :
    1 ≤ (calculateAttackDamage cw config rand).finalValue ∧
    1 ≤ (calculateHealingAmount cw config rand).finalValue :=
  ⟨one_le_attack_finalValue cw config rand,
   one_le_heal_finalValue cw config rand⟩

/-- Concrete completed word for settling claim C3: level-1 word, accuracy
exactly 0.7, one error, slow typing. -/
def cwC3 : CompletedWord :=
  { word := { id := "w1", text := ['c', 'a', 't'], level := .l1,
              category := none, length := 3, expectedWPM := some 40 }
    typedText := ['c', 'a', 't'], timeMs := 1000, errors := 1,
    accuracy := 0.7, wpm := 10, score := 0, keystrokePattern := none }

/-- Concrete combat config for settling claim C3. -/
def cfgC3 : CombatConfig :=
  { difficulty := .NORMAL, playerLevel := 1, combo := 0,
    timeRemaining := 100, totalTime := 300 }

/-- Claim C3 counterexample: at incoming damage 1 with an effectiveness of
exactly 0.5 (and no perfect guard), Math.round makes damageBlocked = 1,
which exceeds 0.95 × incoming = 0.95, refuting the claimed upper bound. -/
theorem claim_C3_counterexample :
    ¬(cwC3.accuracy ≥ 0.98 ∧ cwC3.errors = 0) ∧
    (calculateGuardEffectiveness cwC3 1 cfgC3).finalValue = 1 ∧
    ¬((calculateGuardEffectiveness cwC3 1 cfgC3).finalValue ≤ 0.95 * 1) := by
  refine ⟨?_, ?_, ?_⟩
  · norm_num [cwC3]
  · norm_num [cwC3, cfgC3, calculateGuardEffectiveness, jsOrNum,
      WordLevel.val, jsRound]
  · norm_num [cwC3, cfgC3, calculateGuardEffectiveness, jsOrNum,
      WordLevel.val, jsRound]

/-- Claim C3 (amended): the effectiveness fraction is
clamp(0.4 + 0.1×level + (accuracy − 0.7)×0.5 + speedBonus, 0.1, 0.95) with
speedBonus 0.1 exactly when wpm exceeds the expected WPM; on the
perfect-guard path (accuracy ≥ 0.98 and zero errors) damageBlocked equals
the incoming damage; otherwise damageBlocked is the half-up rounding of
incoming × effectiveness, hence within rounding slack of the claimed
bounds: 0.1×incoming − 1/2 ≤ damageBlocked ≤ 0.95×incoming + 1/2. -/
theorem claim_C3 (cw : CompletedWord) (incoming : ℚ) (cfg : CombatConfig)
    (hinc : 0 ≤ incoming) :
    ((cw.accuracy ≥ 0.98 ∧ cw.errors = 0) →
      (calculateGuardEffectiveness cw incoming cfg).finalValue = incoming) ∧
    (¬(cw.accuracy ≥ 0.98 ∧ cw.errors = 0) →
      (calculateGuardEffectiveness cw incoming cfg).finalValue =
        ((jsRound (incoming *
          (min 0.95 (max 0.1 (0.4 + 0.1 * cw.word.level.val +
            (cw.accuracy - 0.7) * 0.5 +
            (if cw.wpm > jsOrNum cw.word.expectedWPM (getExpectedWPM cw)
             then 0.1 else 0))))) : ℤ) : ℚ) ∧
      0.1 * incoming - 1/2 ≤
        (calculateGuardEffectiveness cw incoming cfg).finalValue ∧
      (calculateGuardEffectiveness cw incoming cfg).finalValue ≤
        0.95 * incoming + 1/2) := by
  have hform : (0.4 + cw.word.level.val * 0.1 + ((cw.accuracy - 0.7) * 0.5 +
      (if cw.wpm > jsOrNum cw.word.expectedWPM (getExpectedWPM cw)
       then (0.1:ℚ) else 0))) =
      (0.4 + 0.1 * cw.word.level.val + (cw.accuracy - 0.7) * 0.5 +
      (if cw.wpm > jsOrNum cw.word.expectedWPM (getExpectedWPM cw)
       then (0.1:ℚ) else 0)) := by ring
  constructor
  · intro h
    simp only [calculateGuardEffectiveness]
    simp [h]
  · intro h
    have hcrit : decide (cw.accuracy ≥ 0.98 ∧ cw.errors = 0) = false := by
      simpa using h
    set sb : ℚ :=
      if cw.wpm > jsOrNum cw.word.expectedWPM (getExpectedWPM cw)
      then (0.1:ℚ) else 0 with hsb
    set eff : ℚ := min 0.95 (max 0.1 (0.4 + 0.1 * cw.word.level.val +
      (cw.accuracy - 0.7) * 0.5 + sb)) with heff
    have hval : (calculateGuardEffectiveness cw incoming cfg).finalValue =
        ((jsRound (incoming * eff) : ℤ) : ℚ) := by
      simp only [calculateGuardEffectiveness, hcrit, Bool.false_eq_true,
        if_false]
      rw [heff, hsb]
      ring_nf
    have heff1 : (0.1:ℚ) ≤ eff := by
      rw [heff]
      exact le_min (by norm_num) (le_max_left _ _)
    have heff2 : eff ≤ 0.95 := by
      rw [heff]
      exact min_le_left _ _
    have hlow : incoming * 0.1 ≤ incoming * eff :=
      mul_le_mul_of_nonneg_left heff1 hinc
    have hhigh : incoming * eff ≤ incoming * 0.95 :=
      mul_le_mul_of_nonneg_left heff2 hinc
    have hr1 := le_jsRound (incoming * eff)
    have hr2 := jsRound_le (incoming * eff)
    refine ⟨hval, ?_, ?_⟩
    · rw [hval]; nlinarith
    · rw [hval]; nlinarith

/-- Claim C3 witness: the amended theorem applied at a concrete non-perfect
input (incoming 1). -/
theorem claim_C3_witness :
    (0:ℚ) ≤ 1 ∧
    (¬(cwC3.accuracy ≥ 0.98 ∧ cwC3.errors = 0) →
      (calculateGuardEffectiveness cwC3 1 cfgC3).finalValue =
        ((jsRound ((1:ℚ) *
          (min 0.95 (max 0.1 (0.4 + 0.1 * cwC3.word.level.val +
            (cwC3.accuracy - 0.7) * 0.5 +
            (if cwC3.wpm > jsOrNum cwC3.word.expectedWPM (getExpectedWPM cwC3)
             then 0.1 else 0))))) : ℤ) : ℚ) ∧
      0.1 * 1 - 1/2 ≤
        (calculateGuardEffectiveness cwC3 1 cfgC3).finalValue ∧
      (calculateGuardEffectiveness cwC3 1 cfgC3).finalValue ≤
        0.95 * 1 + 1/2) :=
  ⟨by norm_num, (claim_C3 cwC3 1 cfgC3 (by norm_num)).2⟩

/- Lemmas for accuracy monotonicity (claim C6). -/

/-- Attack accuracy modifier is monotone on [0.7, 1]. -/
lemma accMod_mono_attack {a1 a2 : ℚ} (h1 : 0.7 ≤ a1) (h12 : a1 ≤ a2)
    (h2 : a2 ≤ 1) :
    calculateAccuracyModifier a1 false ≤ calculateAccuracyModifier a2 false := by
  unfold calculateAccuracyModifier
  have d1 : (a1 - 0.7) / (1.0 - 0.7) ≤ (a2 - 0.7) / (1.0 - 0.7) := by
    apply div_le_div_of_nonneg_right (by linarith) (by norm_num)
  have d2 : (a1 - 0.7) / (1.0 - 0.7) ≤ 1 := by
    rw [div_le_one (by norm_num)]
    linarith
  split_ifs <;> first | contradiction | linarith | (exfalso; linarith)

/-- Healing accuracy modifier is monotone on [0.7, 1). -/
lemma accMod_mono_heal {a1 a2 : ℚ} (h1 : 0.7 ≤ a1) (h12 : a1 ≤ a2)
    (h2 : a2 < 1) :
    calculateAccuracyModifier a1 true ≤ calculateAccuracyModifier a2 true := by
  unfold calculateAccuracyModifier
  have d1 : (a1 - 0.7) / (1.0 - 0.7) ≤ (a2 - 0.7) / (1.0 - 0.7) := by
    apply div_le_div_of_nonneg_right (by linarith) (by norm_num)
  split_ifs <;> first | contradiction | linarith | (exfalso; linarith)

/-- The accuracy modifier is non-negative from accuracy 0.7 upward. -/
lemma accMod_nonneg {a : ℚ} (h : 0.7 ≤ a) (b : Bool) :
    0 ≤ calculateAccuracyModifier a b := by
  unfold calculateAccuracyModifier
  have d0 : 0 ≤ (a - 0.7) / (1.0 - 0.7) := by
    apply div_nonneg (by linarith) (by norm_num)
  split_ifs <;> first | linarith | norm_num

/-- The critical-hit chance is monotone in accuracy (all other completed
word fields and the config held fixed). -/
lemma critChance_mono (cw : CompletedWord) (cfg : CombatConfig) {a1 a2 : ℚ}
    (h : a1 ≤ a2) :
    calculateCriticalHitChance { cw with accuracy := a1 } cfg ≤
    calculateCriticalHitChance { cw with accuracy := a2 } cfg := by
  have hE1 : getExpectedWPM { cw with accuracy := a1 } = getExpectedWPM cw := rfl
  have hE2 : getExpectedWPM { cw with accuracy := a2 } = getExpectedWPM cw := rfl
  simp only [calculateCriticalHitChance, hE1, hE2]
  by_cases herr : cw.errors = 0
  · simp only [herr, eq_self_iff_true, true_and]
    split_ifs <;>
      first
        | (exact min_le_min le_rfl (by linarith))
        | (exfalso; linarith)
  · simp only [herr, false_and, if_false]
    split_ifs <;>
      first
        | (exact min_le_min le_rfl (by linarith))
        | (exfalso; linarith)

/-- The critical multiplier (1 below the threshold draw, k at or above it)
is monotone in the chance, for any multiplier k ≥ 1. -/
lemma critMul_mono {c1 c2 rand k : ℚ} (hc : c1 ≤ c2) (hk : 1 ≤ k) :
    (if rand < c1 then k else 1) ≤ (if rand < c2 then k else 1) := by
  split_ifs <;> first | linarith | (exfalso; linarith)

/-- Monotone step through rounding and the floor at 1, for a shared fixed
factor of arbitrary sign. -/
lemma final_step_mono {F G1 G2 : ℚ} (hG : G1 ≤ G2) (hG0 : 0 ≤ G1) :
    ((max 1 (jsRound (G1 * F)) : ℤ) : ℚ) ≤
    ((max 1 (jsRound (G2 * F)) : ℤ) : ℚ) := by
  rcases le_or_lt 0 F with hF | hF
  · have hm : G1 * F ≤ G2 * F := mul_le_mul_of_nonneg_right hG hF
    exact_mod_cast max_le_max (le_refl (1:ℤ)) (jsRound_mono hm)
  · have hG0' : 0 ≤ G2 := le_trans hG0 hG
    have hz1 : G1 * F ≤ 0 := by nlinarith
    have hz2 : G2 * F ≤ 0 := by nlinarith
    have r1 := jsRound_nonpos hz1
    have r2 := jsRound_nonpos hz2
    have e1 : max 1 (jsRound (G1 * F)) = 1 := max_eq_left (by omega)
    have e2 : max 1 (jsRound (G2 * F)) = 1 := max_eq_left (by omega)
    rw [e1, e2]

/-- Base completed word for settling claim C6 (level-1 word, zero errors,
neutral speed). -/
def cwC6 : CompletedWord :=
  { word := { id := "w2", text := ['s', 'u', 'n'], level := .l1,
              category := none, length := 3, expectedWPM := some 40 }
    typedText := ['s', 'u', 'n'], timeMs := 1000, errors := 0,
    accuracy := 1, wpm := 40, score := 0, keystrokePattern := none }

/-- Combat config for settling claim C6. -/
def cfgC6 : CombatConfig :=
  { difficulty := .NORMAL, playerLevel := 1, combo := 0,
    timeRemaining := 100, totalTime := 300 }

/-- Claim C6 counterexample: with the critical draw fixed at 0.9 and all
other inputs fixed, raising accuracy from 0.94 to 1.0 DECREASES the
healing finalValue from 14 to 12, because the healing accuracy modifier
jumps down to 1.3 × 0.8 = 1.04 at perfect accuracy. -/
theorem claim_C6_counterexample :
    ({ cwC6 with accuracy := 0.94 } : CompletedWord).accuracy ≤
      ({ cwC6 with accuracy := 1 } : CompletedWord).accuracy ∧
    (0.7:ℚ) ≤ ({ cwC6 with accuracy := 0.94 } : CompletedWord).accuracy ∧
    ({ cwC6 with accuracy := 1 } : CompletedWord).accuracy ≤ 1 ∧
    (calculateHealingAmount { cwC6 with accuracy := 0.94 } cfgC6 0.9).finalValue = 14 ∧
    (calculateHealingAmount { cwC6 with accuracy := 1 } cfgC6 0.9).finalValue = 12 := by
  refine ⟨by norm_num, by norm_num, by norm_num, ?_, ?_⟩
  · norm_num [calculateHealingAmount, cwC6, cfgC6, calculateAccuracyModifier,
      calculateSpeedModifier, calculateComboModifier, calculateLevelModifier,
      calculateCriticalHitChance, DIFFICULTY_MODIFIERS,
      WORD_LEVEL_BASE_HEALING, jsOrNum, jsRound]
  · norm_num [calculateHealingAmount, cwC6, cfgC6, calculateAccuracyModifier,
      calculateSpeedModifier, calculateComboModifier, calculateLevelModifier,
      calculateCriticalHitChance, DIFFICULTY_MODIFIERS,
      WORD_LEVEL_BASE_HEALING, jsOrNum, jsRound]

/-- Claim C6 (amended): with the random draw and all inputs other than
accuracy fixed, increasing accuracy within [0.7, 1.0] never decreases the
attack finalValue; the healing finalValue is likewise monotone on
[0.7, 1.0) but can drop at accuracy exactly 1.0, where the healing
accuracy modifier is 1.3 × 0.8 = 1.04.  On the attack path the accuracy
modifier is 0.5 below 0.7, 1.3 at or above 1.0, and interpolates linearly
from 0.8 (at 0.7) to 1.3 (at 1.0) in between. -/
theorem claim_C6 (cw : CompletedWord) (cfg : CombatConfig) (rand : ℚ)
    (a1 a2 : ℚ) (h1 : 0.7 ≤ a1) (h12 : a1 ≤ a2) (h2 : a2 ≤ 1) :
    ((calculateAttackDamage { cw with accuracy := a1 } cfg rand).finalValue ≤
      (calculateAttackDamage { cw with accuracy := a2 } cfg rand).finalValue) ∧
    (a2 < 1 →
      (calculateHealingAmount { cw with accuracy := a1 } cfg rand).finalValue ≤
      (calculateHealingAmount { cw with accuracy := a2 } cfg rand).finalValue) ∧
    (∀ a : ℚ, a < 0.7 → calculateAccuracyModifier a false = 0.5) ∧
    (∀ a : ℚ, 1 ≤ a → calculateAccuracyModifier a false = 1.3) ∧
    (∀ a : ℚ, 0.7 ≤ a → a < 1 →
      calculateAccuracyModifier a false = 0.8 + ((a - 0.7) / 0.3) * 0.5) ∧
    (∀ a : ℚ, 1 ≤ a → calculateAccuracyModifier a true = 1.04) := by
  have hcc := critChance_mono cw cfg h12
  refine ⟨?_, ?_, ?_, ?_, ?_, ?_⟩
  · -- attack monotonicity
    have hacc := accMod_mono_attack h1 h12 h2
    have hacc0 := accMod_nonneg h1 false
    have hk : (if rand < calculateCriticalHitChance { cw with accuracy := a1 } cfg
        then (1.8:ℚ) else 1) ≤
        (if rand < calculateCriticalHitChance { cw with accuracy := a2 } cfg
        then (1.8:ℚ) else 1) := critMul_mono hcc (by norm_num)
    have hk0 : (1:ℚ) ≤ (if rand < calculateCriticalHitChance
        { cw with accuracy := a1 } cfg then (1.8:ℚ) else 1) := by
      split_ifs <;> norm_num
    have hE1 : getExpectedWPM { cw with accuracy := a1 } = getExpectedWPM cw := rfl
    have hE2 : getExpectedWPM { cw with accuracy := a2 } = getExpectedWPM cw := rfl
    have h10 : (1.0:ℚ) = 1 := by norm_num
    simp only [calculateAttackDamage, hE1, hE2, decide_eq_true_eq, h10]
    have harg : ∀ (m k : ℚ),
        WORD_LEVEL_BASE_DAMAGE cw.word.level * m *
          calculateSpeedModifier cw.wpm
            (jsOrNum cw.word.expectedWPM (getExpectedWPM cw)) false *
          calculateComboModifier cfg.combo 1 *
          calculateLevelModifier cfg.playerLevel 1 *
          DIFFICULTY_MODIFIERS cfg.difficulty * k =
        (m * k) *
          (WORD_LEVEL_BASE_DAMAGE cw.word.level *
          calculateSpeedModifier cw.wpm
            (jsOrNum cw.word.expectedWPM (getExpectedWPM cw)) false *
          calculateComboModifier cfg.combo 1 *
          calculateLevelModifier cfg.playerLevel 1 *
          DIFFICULTY_MODIFIERS cfg.difficulty) := by
      intro m k
      ring
    rw [harg, harg]
    apply final_step_mono
    · exact mul_le_mul hacc hk (by linarith)
        (accMod_nonneg (h1.trans h12) false)
    · exact mul_nonneg hacc0 (by linarith)
  · -- healing monotonicity below perfect accuracy
    intro h2'
    have hacc := accMod_mono_heal h1 h12 h2'
    have hacc0 := accMod_nonneg h1 true
    have hk : (if rand < calculateCriticalHitChance { cw with accuracy := a1 }
          cfg * 0.6 then (1.5:ℚ) else 1) ≤
        (if rand < calculateCriticalHitChance { cw with accuracy := a2 }
          cfg * 0.6 then (1.5:ℚ) else 1) :=
      critMul_mono (by linarith) (by norm_num)
    have hk0 : (1:ℚ) ≤ (if rand < calculateCriticalHitChance
        { cw with accuracy := a1 } cfg * 0.6 then (1.5:ℚ) else 1) := by
      split_ifs <;> norm_num
    have hE1 : getExpectedWPM { cw with accuracy := a1 } = getExpectedWPM cw := rfl
    have hE2 : getExpectedWPM { cw with accuracy := a2 } = getExpectedWPM cw := rfl
    have h10 : (1.0:ℚ) = 1 := by norm_num
    simp only [calculateHealingAmount, hE1, hE2, decide_eq_true_eq, h10]
    have harg : ∀ (m k : ℚ),
        WORD_LEVEL_BASE_HEALING cw.word.level * m *
          calculateSpeedModifier cw.wpm
            (jsOrNum cw.word.expectedWPM (getExpectedWPM cw)) true *
          calculateComboModifier cfg.combo 0.7 *
          calculateLevelModifier cfg.playerLevel 0.8 *
          DIFFICULTY_MODIFIERS cfg.difficulty * k =
        (m * k) *
          (WORD_LEVEL_BASE_HEALING cw.word.level *
          calculateSpeedModifier cw.wpm
            (jsOrNum cw.word.expectedWPM (getExpectedWPM cw)) true *
          calculateComboModifier cfg.combo 0.7 *
          calculateLevelModifier cfg.playerLevel 0.8 *
          DIFFICULTY_MODIFIERS cfg.difficulty) := by
      intro m k
      ring
    rw [harg, harg]
    apply final_step_mono
    · exact mul_le_mul hacc hk (by linarith)
        (accMod_nonneg (h1.trans h12) true)
    · exact mul_nonneg hacc0 (by linarith)
  · intro a ha
    unfold calculateAccuracyModifier
    rw [if_pos ha]
  · intro a ha
    unfold calculateAccuracyModifier
    rw [if_neg (by linarith), if_pos (by linarith)]
    norm_num
  · intro a ha ha'
    unfold calculateAccuracyModifier
    rw [if_neg (by linarith), if_neg (by linarith)]
    norm_num
  · intro a ha
    unfold calculateAccuracyModifier
    rw [if_neg (by linarith), if_pos (by linarith)]
    norm_num

/-- Claim C6 witness: the amended monotonicity applied at accuracy 0.8 vs
0.9 on the concrete word and config. -/
theorem claim_C6_witness :
    (0.7:ℚ) ≤ 0.8 ∧ (0.8:ℚ) ≤ 0.9 ∧ (0.9:ℚ) ≤ 1 ∧
    ((calculateAttackDamage { cwC6 with accuracy := 0.8 } cfgC6 0.9).finalValue ≤
      (calculateAttackDamage { cwC6 with accuracy := 0.9 } cfgC6 0.9).finalValue) :=
  ⟨by norm_num, by norm_num, by norm_num,
   (claim_C6 cwC6 cfgC6 0.9 0.8 0.9 (by norm_num) (by norm_num)
     (by norm_num)).1⟩

/- Lemmas and driver for the typing round-trip (claim C8). -/

/-- Indexing just past a prefix finds the next character. -/
lemma get?_append_cons {α : Type} (l r : List α) (c : α) :
    (l ++ c :: r).get? l.length = some c := by
  induction l with
  | nil => rfl
  | cons x xs ih => simpa using ih

/-- Scenario driver for claim C8: feed the characters cs, in order, to a
typing session the way the adapter does for accepted characters — each
keystroke grows the input by exactly that character (keystroke timestamps
supplied by the times stream). -/
def feedExactChars (s : TypingSession) (cs : Str) (times : ℕ → ℚ) (i : ℕ) :
    TypingSession :=
  match cs with
  | [] => s
  | c :: rest =>
      feedExactChars
        (updateTypingSession s (Key.ch c) (s.currentInput ++ [c]) (times i))
        rest times (i + 1)

/-- Feeding exactly the remaining characters of the target word completes
the input without registering any correction. -/
lemma feedExactChars_spec (cs : Str) :
    ∀ (s : TypingSession) (times : ℕ → ℚ) (i : ℕ),
      s.word.text = s.currentInput ++ cs →
      (feedExactChars s cs times i).currentInput = s.word.text ∧
      (feedExactChars s cs times i).errors = s.errors ∧
      (feedExactChars s cs times i).word = s.word := by
  induction cs with
  | nil =>
      intro s times i h
      rw [List.append_nil] at h
      simp [feedExactChars, h]
  | cons c rest ih =>
      intro s times i h
      have hlen : (s.currentInput ++ [c]).length = s.currentInput.length + 1 := by
        simp
      have hchar1 : jsCharAt (s.currentInput ++ [c])
          ((s.currentInput ++ [c]).length - 1) = some c := by
        rw [hlen]
        simpa [jsCharAt] using get?_append_cons s.currentInput [] c
      have hchar2 : jsCharAt s.word.text
          ((s.currentInput ++ [c]).length - 1) = some c := by
        rw [hlen, h]
        simpa [jsCharAt] using get?_append_cons s.currentInput rest c
      have hcorr : (Key.ch c = Key.backspace ||
          ((s.currentInput ++ [c]).length > s.currentInput.length &&
            jsCharAt (s.currentInput ++ [c])
              ((s.currentInput ++ [c]).length - 1) ≠
              jsCharAt s.word.text
                ((s.currentInput ++ [c]).length - 1))) = false := by
        rw [hchar1, hchar2]
        simp
      have hstep : (updateTypingSession s (Key.ch c) (s.currentInput ++ [c])
          (times i)).currentInput = s.currentInput ++ [c] ∧
          (updateTypingSession s (Key.ch c) (s.currentInput ++ [c])
            (times i)).errors = s.errors ∧
          (updateTypingSession s (Key.ch c) (s.currentInput ++ [c])
            (times i)).word = s.word := by
        unfold updateTypingSession
        rw [hcorr]
        simp
      obtain ⟨hs1, hs2, hs3⟩ := hstep
      have hnext : (updateTypingSession s (Key.ch c) (s.currentInput ++ [c])
          (times i)).word.text =
          (updateTypingSession s (Key.ch c) (s.currentInput ++ [c])
            (times i)).currentInput ++ rest := by
        rw [hs1, hs3, h]
        simp
      have := ih (updateTypingSession s (Key.ch c) (s.currentInput ++ [c])
        (times i)) times (i + 1) hnext
      rw [feedExactChars]
      refine ⟨?_, ?_, ?_⟩
      · rw [this.1, hs3]
      · rw [this.2.1, hs2]
      · rw [this.2.2, hs3]

/-- Aligned self-comparison matches every character. -/
lemma zip_self_filter_length (t : Str) :
    ((t.zip t).filter (fun p => p.1 = p.2)).length = t.length := by
  induction t with
  | nil => rfl
  | cons c cs ih =>
      simp only [List.zip_cons_cons, List.filter_cons]
      simp [ih]

/-- Typing the target exactly yields accuracy 1. -/
lemma calculateAccuracy_self (t : Str) (e : ℕ) :
    calculateAccuracy t t e = 1 := by
  unfold calculateAccuracy
  by_cases h : t.length = 0
  · simp [h]
  · have hq : (t.length : ℚ) ≠ 0 := by exact_mod_cast h
    simp only [h, if_false]
    rw [zip_self_filter_length]
    rw [sub_self, abs_zero, div_self hq]
    norm_num

/-- Claim C8: a TypingSession updated with exactly the characters of the
target word's text, in order, with no Backspace and no mismatching
characters, then completed and validated, yields a CompletedWord with
accuracy 1.0 and zero errors. -/
theorem claim_C8 (w : Word) (actionType : ActionType)
    (startTime endTime : ℚ) (times : ℕ → ℚ) (v : InputValidator) :
    (createCompletedWord
      (completeTypingSession
        (feedExactChars (createTypingSession w actionType startTime)
          w.text times 0) endTime)
      (validateCompletedWord v
        (completeTypingSession
          (feedExactChars (createTypingSession w actionType startTime)
            w.text times 0) endTime)).1).accuracy = 1 ∧
    (createCompletedWord
      (completeTypingSession
        (feedExactChars (createTypingSession w actionType startTime)
          w.text times 0) endTime)
      (validateCompletedWord v
        (completeTypingSession
          (feedExactChars (createTypingSession w actionType startTime)
            w.text times 0) endTime)).1).errors = 0 := by
  have hinit : (createTypingSession w actionType startTime).word.text =
      (createTypingSession w actionType startTime).currentInput ++ w.text := by
    simp [createTypingSession]
  obtain ⟨hin, herr, hword⟩ :=
    feedExactChars_spec w.text (createTypingSession w actionType startTime)
      times 0 hinit
  set fed := feedExactChars (createTypingSession w actionType startTime)
    w.text times 0 with hfed
  have herr0 : fed.errors = 0 := by
    rw [herr]
    simp [createTypingSession]
  have hwordw : fed.word = w := by
    rw [hword]
    simp [createTypingSession]
  have hinw : fed.currentInput = w.text := by
    rw [hin]
    simp [createTypingSession]
  constructor
  · show (validateCompletedWord v (completeTypingSession fed endTime)).1.accuracy = 1
    simp only [validateCompletedWord, completeTypingSession]
    simp only [hinw, hwordw, herr0]
    exact calculateAccuracy_self w.text 0
  · show (completeTypingSession fed endTime).errors = 0
    simp [completeTypingSession, herr0]

/- State-manager invariant machinery (claims C1, C2). -/

/-- The global state bounds of the specification: HP within [0, max] on
both sides, non-negative combo, accuracy within [0,1], non-negative time. -/
def StateBounds (s : GameState) : Prop :=
  0 ≤ s.hp.player ∧ s.hp.player ≤ s.hp.playerMax ∧
  0 ≤ s.hp.enemy ∧ s.hp.enemy ≤ s.hp.enemyMax ∧
  0 ≤ s.combo ∧
  0 ≤ s.stats.accuracy ∧ s.stats.accuracy ≤ 1 ∧
  0 ≤ s.timeLeft

/-- A transition validates cleanly exactly when the status hop is legal
and the candidate state satisfies the bounds. -/
lemma validateStateTransition_nil_iff (f t : GameState) :
    validateStateTransition f t = [] ↔
    (isValidStatusTransition f.status t.status = true ∧ StateBounds t) := by
  unfold validateStateTransition StateBounds
  constructor
  · intro h
    obtain ⟨h, h6⟩ := List.append_eq_nil.mp h
    obtain ⟨h, h5⟩ := List.append_eq_nil.mp h
    obtain ⟨h, h4⟩ := List.append_eq_nil.mp h
    obtain ⟨h, h3⟩ := List.append_eq_nil.mp h
    obtain ⟨h1, h2⟩ := List.append_eq_nil.mp h
    have g1 : isValidStatusTransition f.status t.status = true := by
      by_contra hc
      rw [if_neg hc] at h1
      exact absurd h1 (by simp)
    have g2 : ¬(t.hp.player < 0 ∨ t.hp.player > t.hp.playerMax) := by
      intro hc
      rw [if_pos hc] at h2
      exact absurd h2 (by simp)
    have g3 : ¬(t.hp.enemy < 0 ∨ t.hp.enemy > t.hp.enemyMax) := by
      intro hc
      rw [if_pos hc] at h3
      exact absurd h3 (by simp)
    have g4 : ¬(t.combo < 0) := by
      intro hc
      rw [if_pos hc] at h4
      exact absurd h4 (by simp)
    have g5 : ¬(t.stats.accuracy < 0 ∨ t.stats.accuracy > 1) := by
      intro hc
      rw [if_pos hc] at h5
      exact absurd h5 (by simp)
    have g6 : ¬(t.timeLeft < 0) := by
      intro hc
      rw [if_pos hc] at h6
      exact absurd h6 (by simp)
    push_neg at g2 g3 g4 g5 g6
    exact ⟨g1, by linarith [g2.1, g2.2], by linarith [g2.1, g2.2],
      by linarith [g3.1, g3.2], by linarith [g3.1, g3.2], by linarith,
      by linarith [g5.1, g5.2], by linarith [g5.1, g5.2], by linarith⟩
  · intro ⟨h1, hb⟩
    obtain ⟨b1, b2, b3, b4, b5, b6, b7, b8⟩ := hb
    rw [if_pos h1,
      if_neg (by push_neg; constructor <;> linarith),
      if_neg (by push_neg; constructor <;> linarith),
      if_neg (by linarith),
      if_neg (by push_neg; constructor <;> linarith),
      if_neg (by linarith)]
    rfl

/-- updateState never changes the stored options. -/
lemma updateState_options (m : GameStateManager) (u : GSUpdate)
    (trigger : String) (now : ℚ) :
    (m.updateState u trigger now).1.options = m.options := by
  simp only [GameStateManager.updateState]
  split_ifs <;> rfl

/-- A validated updateState preserves the state bounds: a rejected update
keeps the old state, a committed one passed the bounds checks. -/
lemma updateState_preserves (m : GameStateManager) (u : GSUpdate)
    (trigger : String) (now : ℚ)
    (hval : m.options.validateTransitions = true)
    (hb : StateBounds m.currentState) :
    StateBounds (m.updateState u trigger now).1.currentState := by
  simp only [GameStateManager.updateState]
  simp only [hval, if_true]
  split_ifs with h hh
  · exact hb
  · have hnil : validateStateTransition m.currentState
        (mergeState m.currentState u) = [] := not_ne_iff.mp h
    exact ((validateStateTransition_nil_iff _ _).mp hnil).2
  · have hnil : validateStateTransition m.currentState
        (mergeState m.currentState u) = [] := not_ne_iff.mp h
    exact ((validateStateTransition_nil_iff _ _).mp hnil).2

/-- One operation of the GameStateManager API (the trigger labels that are
string constants in the source are part of the operation). -/
inductive MgrOp
  | update (u : GSUpdate) (trigger : String)
  | batch (updates : List (GSUpdate × String))
  | hp (u : HPUpdate)
  | stats (u : StatsUpdate)
  | action (r : ActionResult)
  | lock (l : Option LockType)
  | words (w : WordsUpdate)

/-- Apply one manager operation, keeping the committed manager state. -/
def applyMgrOp (m : GameStateManager) (op : MgrOp) (now : ℚ) :
    GameStateManager :=
  match op with
  | .update u trigger => (m.updateState u trigger now).1
  | .batch us => (m.batchUpdate us now).1
  | .hp u => (m.updateHP u now).1
  | .stats u => (m.updateStats u now).1
  | .action r => (m.applyActionResult r now).1
  | .lock l => (m.setWordLock l now).1
  | .words w => (m.updateCurrentWords w now).1

/-- Run a sequence of manager operations (each with its Date.now()). -/
def runMgrOps (m : GameStateManager) (ops : List (MgrOp × ℚ)) :
    GameStateManager :=
  ops.foldl (fun acc p => applyMgrOp acc p.1 p.2) m

/-- No manager operation changes the stored options. -/
lemma applyMgrOp_options (m : GameStateManager) (op : MgrOp) (now : ℚ) :
    (applyMgrOp m op now).options = m.options := by
  cases op with
  | update u trigger => exact updateState_options ..
  | batch us =>
      show (m.batchUpdate us now).1.options = m.options
      simp only [GameStateManager.batchUpdate]
      split_ifs
      · rfl
      · exact updateState_options ..
  | hp u => exact updateState_options ..
  | stats u => exact updateState_options ..
  | action r =>
      show (m.applyActionResult r now).1.options = m.options
      cases r <;> exact updateState_options ..
  | lock l =>
      show (m.setWordLock l now).1.options = m.options
      simp only [GameStateManager.setWordLock]
      split_ifs
      · rfl
      · exact updateState_options ..
  | words w =>
      show (m.updateCurrentWords w now).1.options = m.options
      simp only [GameStateManager.updateCurrentWords]
      split_ifs
      · rfl
      · exact updateState_options ..

/-- Every manager operation preserves the state bounds when transition
validation is enabled. -/
lemma applyMgrOp_preserves (m : GameStateManager) (op : MgrOp) (now : ℚ)
    (hval : m.options.validateTransitions = true)
    (hb : StateBounds m.currentState) :
    StateBounds (applyMgrOp m op now).currentState := by
  cases op with
  | update u trigger => exact updateState_preserves _ _ _ _ hval hb
  | batch us =>
      show StateBounds (m.batchUpdate us now).1.currentState
      simp only [GameStateManager.batchUpdate]
      split_ifs
      · exact hb
      · exact updateState_preserves _ _ _ _ hval hb
  | hp u => exact updateState_preserves _ _ _ _ hval hb
  | stats u => exact updateState_preserves _ _ _ _ hval hb
  | action r =>
      show StateBounds (m.applyActionResult r now).1.currentState
      cases r <;> exact updateState_preserves _ _ _ _ hval hb
  | lock l =>
      show StateBounds (m.setWordLock l now).1.currentState
      simp only [GameStateManager.setWordLock]
      split_ifs
      · exact hb
      · exact updateState_preserves _ _ _ _ hval hb
  | words w =>
      show StateBounds (m.updateCurrentWords w now).1.currentState
      simp only [GameStateManager.updateCurrentWords]
      split_ifs
      · exact hb
      · exact updateState_preserves _ _ _ _ hval hb

/-- Claim C1: for every sequence of GameStateManager operations
(updateState, batchUpdate, updateHP, updateStats, applyActionResult,
setWordLock, updateCurrentWords) started from a state satisfying the
bounds and with transition validation enabled, every reachable committed
state satisfies 0 ≤ hp.player ≤ hp.playerMax, 0 ≤ hp.enemy ≤ hp.enemyMax,
combo ≥ 0, 0 ≤ stats.accuracy ≤ 1, and timeLeft ≥ 0. -/
theorem claim_C1 (m : GameStateManager) (ops : List (MgrOp × ℚ))
    (hval : m.options.validateTransitions = true)
    (hb : StateBounds m.currentState) :
    StateBounds (runMgrOps m ops).currentState := by
  induction ops generalizing m with
  | nil => exact hb
  | cons p rest ih =>
      exact ih (applyMgrOp m p.1 p.2)
        (by rw [applyMgrOp_options]; exact hval)
        (applyMgrOp_preserves m p.1 p.2 hval hb)

/-- The default initial GameState (createInitialState of GameAdapter.ts,
textually identical to createDefaultState of GameStateManager.ts). -/
def createInitialState : GameState :=
  { status := .LOADING
    hp := { player := 100, enemy := 100, playerMax := 100, enemyMax := 100 }
    currentWords :=
      { heal := { id := "", text := [], level := .l1, category := none,
                  length := 0, expectedWPM := none }
        attack := { id := "", text := [], level := .l1, category := none,
                    length := 0, expectedWPM := none }
        guard := none }
    locked := none
    combo := 0
    stats := { wpm := 0, accuracy := 1.0, totalDamage := 0,
               totalHealing := 0, attackCount := 0, healCount := 0,
               guardCount := 0, maxCombo := 0, wordsCompleted := 0 }
    timeLeft := 300
    round := 1 }

/-- The state-manager options the PhaserAdapter constructor passes. -/
def phaserManagerOptions : StateManagerOptions :=
  { enableHistory := true, maxHistorySize := 100,
    validateTransitions := true, enableLogging := false }

/-- The state manager as the PhaserAdapter constructs it. -/
def initialManager : GameStateManager :=
  { currentState := createInitialState, stateHistory := [],
    options := phaserManagerOptions }

/-- The bounds hold for the default initial state. -/
lemma initial_state_bounds : StateBounds createInitialState := by
  unfold StateBounds createInitialState
  norm_num

/-- Claim C1 witness: a concrete run (status hop to READY, an HP update, a
batch update and an action result) from the default initial state. -/
theorem claim_C1_witness :
    initialManager.options.validateTransitions = true ∧
    StateBounds initialManager.currentState ∧
    StateBounds (runMgrOps initialManager
      [(.update { noUpdate with status := some .READY } "mount", 0),
       (.hp { player := some 42, enemy := none, playerMax := none,
              enemyMax := none }, 1),
       (.batch [({ noUpdate with status := some .PLAYING }, "start")], 2),
       (.lock (some .heal), 3)]).currentState :=
  ⟨rfl, initial_state_bounds,
   claim_C1 initialManager _ rfl initial_state_bounds⟩

/-- Claim C2: an updateState call whose merged candidate fails validation
(illegal status hop or out-of-bounds HP/combo/accuracy/time) leaves the
stored manager entirely unchanged, returns valid := false with the
itemized error list, and the status graph is exactly
LOADING→{READY,ENDED}, READY→{PLAYING,ENDED}, PLAYING→{PAUSED,ENDED},
PAUSED→{PLAYING,ENDED}, ENDED terminal, with self-transitions allowed.
Exceptions cannot arise: updateState is a total function. -/
theorem claim_C2 (m : GameStateManager) (u : GSUpdate) (trigger : String)
    (now : ℚ)
    (hval : m.options.validateTransitions = true)
    (hviol : ¬(isValidStatusTransition m.currentState.status
        (mergeState m.currentState u).status = true ∧
      StateBounds (mergeState m.currentState u))) :
    (m.updateState u trigger now).1 = m ∧
    (m.updateState u trigger now).2.valid = false ∧
    (m.updateState u trigger now).2.errors =
      validateStateTransition m.currentState (mergeState m.currentState u) ∧
    (m.updateState u trigger now).2.errors ≠ [] ∧
    (∀ s t : GameStatus, isValidStatusTransition s t = true ↔
      (s = t ∨ (s, t) ∈ [(GameStatus.LOADING, GameStatus.READY),
        (GameStatus.LOADING, GameStatus.ENDED),
        (GameStatus.READY, GameStatus.PLAYING),
        (GameStatus.READY, GameStatus.ENDED),
        (GameStatus.PLAYING, GameStatus.PAUSED),
        (GameStatus.PLAYING, GameStatus.ENDED),
        (GameStatus.PAUSED, GameStatus.PLAYING),
        (GameStatus.PAUSED, GameStatus.ENDED)])) := by
  have herr : validateStateTransition m.currentState
      (mergeState m.currentState u) ≠ [] := by
    rw [Ne, validateStateTransition_nil_iff]
    exact hviol
  unfold GameStateManager.updateState
  simp only [hval, if_true]
  rw [if_pos herr]
  refine ⟨rfl, rfl, rfl, herr, ?_⟩
  intro s t
  cases s <;> cases t <;> decide

/-- Claim C2 witness: the illegal hop LOADING → PLAYING on the freshly
constructed manager is rejected wholesale. -/
theorem claim_C2_witness :
    (initialManager.updateState { noUpdate with status := some .PLAYING }
      "bad" 0).1 = initialManager ∧
    (initialManager.updateState { noUpdate with status := some .PLAYING }
      "bad" 0).2.valid = false ∧
    (initialManager.updateState { noUpdate with status := some .PLAYING }
      "bad" 0).2.errors =
      validateStateTransition initialManager.currentState
        (mergeState initialManager.currentState
          { noUpdate with status := some .PLAYING }) ∧
    (initialManager.updateState { noUpdate with status := some .PLAYING }
      "bad" 0).2.errors ≠ [] ∧
    (∀ s t : GameStatus, isValidStatusTransition s t = true ↔
      (s = t ∨ (s, t) ∈ [(GameStatus.LOADING, GameStatus.READY),
        (GameStatus.LOADING, GameStatus.ENDED),
        (GameStatus.READY, GameStatus.PLAYING),
        (GameStatus.READY, GameStatus.ENDED),
        (GameStatus.PLAYING, GameStatus.PAUSED),
        (GameStatus.PLAYING, GameStatus.ENDED),
        (GameStatus.PAUSED, GameStatus.PLAYING),
        (GameStatus.PAUSED, GameStatus.ENDED)])) :=
  claim_C2 initialManager { noUpdate with status := some .PLAYING } "bad" 0
    rfl (fun hc => by
      have := hc.1
      revert this
      decide)

/-- Claim C10: if the eligibility filter (difficulty-derived level and
length ranges plus recency exclusions) leaves zero candidate words,
WordManager.selectWords throws 'Invalid weighted selection parameters'
instead of returning a selection — so selection can fail mid-session on a
non-empty, validly constructed pool, not only at construction time. -/
theorem claim_C10 (m : WordManager) (options : WordSelectionOptions)
    (rng : Rng) (now : ℚ)
    (hpool : m.wordPool ≠ [])
    (hvalid : validateWordPool m.wordPool = .ok m.wordPool)
    (hempty : filterWordPool m (createWordPoolConfig m options) = []) :
    m.selectWords options rng now =
      .error ("Invalid weighted selection parameters") := by
  simp only [WordManager.selectWords, selectWordForType, hempty,
    scoreCandidates, sortByScoreDesc, List.foldr_nil, List.take_nil,
    List.map_nil, weightedRandomSelect]
  rfl

/-- Concrete one-word pool for settling claim C10: a valid level-1 word
that the NORMAL difficulty level range 2..4 filters out. -/
def poolC10 : List Word :=
  [{ id := "w1", text := ['c', 'a', 't'], level := .l1, category := none,
     length := 3, expectedWPM := none }]

/-- WordManager over the one-word pool (as the constructor builds it). -/
def wmC10 : WordManager :=
  { wordPool := poolC10, recentWords := [], currentSelection := none,
    lockState := none, lockStartTime := 0 }

/-- Selection options for claim C10: NORMAL difficulty, round 1, player
level 1. -/
def optsC10 : WordSelectionOptions :=
  { difficulty := .NORMAL, playerLevel := 1, round := 1,
    timeRemaining := 300, previousWords := [], avoidRecentWords := true }

/-- Fixed random stream for claim C10. -/
def rngC10 : Rng := { draws := fun _ => 1/2, idx := 0 }

/-- Claim C10 witness: the one-word pool is non-empty, passes construction
validation unchanged, and selectWords throws on it mid-session. -/
theorem claim_C10_witness :
    wmC10.wordPool ≠ [] ∧
    validateWordPool wmC10.wordPool = .ok wmC10.wordPool ∧
    wmC10.selectWords optsC10 rngC10 0 =
      .error ("Invalid weighted selection parameters") := by
  have hw1 : ("w1" : String) ≠ "" := by decide
  refine ⟨by simp [wmC10, poolC10], ?_, ?_⟩
  · norm_num [validateWordPool, wmC10, poolC10, List.mapM, List.mapM.loop,
      WordLevel.val, hw1, Except.map]
  · apply claim_C10
    · simp [wmC10, poolC10]
    · norm_num [validateWordPool, wmC10, poolC10, List.mapM, List.mapM.loop,
        WordLevel.val, hw1, Except.map]
    · norm_num [filterWordPool, createWordPoolConfig, wmC10, poolC10,
        optsC10, DIFFICULTY_LEVEL_RANGES, DIFFICULTY_LENGTH_RANGES,
        WordLevel.val, List.filter]

/- Commit lemmas for the state manager (used for claim C9). -/

/-- Self-transitions always validate. -/
lemma isValidStatusTransition_self (s : GameStatus) :
    isValidStatusTransition s s = true := by
  simp [isValidStatusTransition]

/-- A cleanly validating update commits the merged state and reports
valid. -/
lemma updateState_commit (m : GameStateManager) (u : GSUpdate)
    (trigger : String) (now : ℚ)
    (hnil : validateStateTransition m.currentState
      (mergeState m.currentState u) = []) :
    (m.updateState u trigger now).1.currentState =
      mergeState m.currentState u ∧
    (m.updateState u trigger now).2.valid = true := by
  have hcond : (if m.options.validateTransitions = true then
      validateStateTransition m.currentState (mergeState m.currentState u)
      else []) = [] := by
    split_ifs
    · exact hnil
    · rfl
  simp only [GameStateManager.updateState, hcond]
  simp

/-- A status-preserving update whose merged state keeps the bounds
commits that merged state. -/
lemma updateState_combo_bounds (m : GameStateManager) (u : GSUpdate)
    (trigger : String) (now : ℚ)
    (hbm : StateBounds (mergeState m.currentState u))
    (hstat : u.status = none) :
    (m.updateState u trigger now).1.currentState.combo =
      (mergeState m.currentState u).combo ∧
    StateBounds (m.updateState u trigger now).1.currentState := by
  have hself : isValidStatusTransition m.currentState.status
      (mergeState m.currentState u).status = true := by
    have hs : (mergeState m.currentState u).status = m.currentState.status := by
      simp [mergeState, hstat]
    rw [hs]
    exact isValidStatusTransition_self _
  have hnil := (validateStateTransition_nil_iff _ _).mpr ⟨hself, hbm⟩
  have hc := (updateState_commit m u trigger now hnil).1
  rw [hc]
  exact ⟨rfl, hbm⟩

/-- The updateState of executeGuard's remaining-damage application keeps
the committed combo (specialised updateHP with only the player field). -/
lemma updateHP_player_combo (m : GameStateManager) (v : ℚ) (now : ℚ)
    (hb : StateBounds m.currentState) :
    (m.updateHP
      { player := some v, enemy := none, playerMax := none,
        enemyMax := none } now).1.currentState.combo =
      m.currentState.combo := by
  obtain ⟨b1, b2, b3, b4, b5, b6, b7, b8⟩ := hb
  simp only [GameStateManager.updateHP]
  exact (updateState_combo_bounds m _ "hp-update" now
    (by
      unfold StateBounds
      simp only [mergeState, Option.getD]
      exact ⟨le_max_left _ _,
        max_le (by linarith) (min_le_left _ _),
        le_max_left _ _,
        max_le (by linarith) (min_le_left _ _),
        b5, b6, b7, b8⟩)
    rfl).1

/-- applyActionResult commits the result's combo whenever the prior state
satisfies the bounds and the result carries a non-negative combo and
value; the committed state keeps the bounds. -/
lemma applyActionResult_combo (m : GameStateManager) (r : ActionResult)
    (now : ℚ) (hb : StateBounds m.currentState)
    (hcombo : 0 ≤ r.combo) (hvalue : 0 ≤ r.value) :
    (m.applyActionResult r now).1.currentState.combo = r.combo ∧
    StateBounds (m.applyActionResult r now).1.currentState := by
  obtain ⟨b1, b2, b3, b4, b5, b6, b7, b8⟩ := hb
  cases r with
  | attack ar =>
      have hcombo' : 0 ≤ ar.combo := hcombo
      have hvalue' : 0 ≤ ar.value := hvalue
      simp only [GameStateManager.applyActionResult]
      refine updateState_combo_bounds m _ "attack-result" now ?_ rfl
      unfold StateBounds
      simp only [mergeState, Option.getD]
      refine ⟨b1, b2, le_max_left _ _, max_le (by linarith) (by linarith),
        hcombo', ?_, ?_, b8⟩ <;> split_ifs <;> simp <;> first | exact b6 | exact b7
  | heal hr =>
      have hcombo' : 0 ≤ hr.combo := hcombo
      have hvalue' : 0 ≤ hr.value := hvalue
      simp only [GameStateManager.applyActionResult]
      refine updateState_combo_bounds m _ "heal-result" now ?_ rfl
      unfold StateBounds
      simp only [mergeState, Option.getD]
      refine ⟨le_min (by linarith) (by linarith)
        |>.trans (le_of_eq rfl), ?_, b3, b4, hcombo', ?_, ?_, b8⟩
      · exact min_le_left _ _
      all_goals split_ifs <;> simp <;> first | exact b6 | exact b7
  | guard gr =>
      have hcombo' : 0 ≤ gr.combo := hcombo
      simp only [GameStateManager.applyActionResult]
      refine updateState_combo_bounds m _ "guard-result" now ?_ rfl
      unfold StateBounds
      simp only [mergeState, Option.getD]
      refine ⟨b1, b2, b3, b4, hcombo', ?_, ?_, b8⟩ <;>
        split_ifs <;> simp <;> first | exact b6 | exact b7


/- Adapter plumbing lemmas (claim C9). -/

/-- Non-negative inputs round to a non-negative integer. -/
lemma jsRound_nonneg {a : ℚ} (h : 0 ≤ a) : 0 ≤ jsRound a := by
  have h0 : jsRound 0 = 0 := by
    unfold jsRound
    norm_num
  have := jsRound_mono h
  omega

/-- The guard calculation never returns a negative finalValue for
non-negative incoming damage. -/
lemma guard_value_nonneg (cw : CompletedWord) (incoming : ℚ)
    (cfg : CombatConfig) (hinc : 0 ≤ incoming) :
    0 ≤ (calculateGuardEffectiveness cw incoming cfg).finalValue := by
  simp only [calculateGuardEffectiveness]
  split_ifs
  · exact hinc
  · exact_mod_cast jsRound_nonneg (mul_nonneg hinc
      (le_min (by norm_num) (le_trans (by norm_num) (le_max_left _ _))))
  · exact_mod_cast jsRound_nonneg (mul_nonneg hinc
      (le_min (by norm_num) (le_trans (by norm_num) (le_max_left _ _))))

/-- setState does not touch the state manager. -/
lemma setState_stateManager (a : PhaserAdapter) (u : GSUpdate) :
    (a.setState u).stateManager = a.stateManager := rfl

/-- emit does not touch the state manager. -/
lemma emit_stateManager (a : PhaserAdapter) (e : GEvent) :
    (a.emit e).stateManager = a.stateManager := rfl

/-- updateCombo does not touch the state manager. -/
lemma updateCombo_stateManager (a : PhaserAdapter) (c : ℚ) :
    (a.updateCombo c).stateManager = a.stateManager := by
  simp only [PhaserAdapter.updateCombo]
  split_ifs <;> rfl

/-- runMgr installs the manager returned by the operation (committed or
not). -/
lemma runMgr_stateManager (a : PhaserAdapter)
    (f : GameStateManager → GameStateManager × ValidationResult) :
    (a.runMgr f).1.stateManager = (f a.stateManager).1 := by
  simp only [PhaserAdapter.runMgr]
  split_ifs <;> rfl

/-- Claim C9: on every successful word completion (executeAttack,
executeHeal, executeGuard alike), the combo placed into the action result
equals the adapter's combo before the completion plus 1, or plus 2 when
the combat calculation is flagged critical, and exactly that combo is
committed to the state manager's state. -/
theorem claim_C9 (a : PhaserAdapter) (w : CompletedWord) (now : ℚ)
    (rng : Rng)
    (hb : StateBounds a.stateManager.currentState)
    (hcombo : 0 ≤ a.state.combo) :
    ((a.executeAttack w now rng).2.1.combo =
      a.state.combo +
        (if (a.executeAttack w now rng).2.1.critical then 2 else 1)) ∧
    ((a.executeAttack w now rng).1.stateManager.currentState.combo =
      (a.executeAttack w now rng).2.1.combo) ∧
    ((a.executeHeal w now rng).2.1.combo =
      a.state.combo +
        (if (a.executeHeal w now rng).2.1.critical then 2 else 1)) ∧
    ((a.executeHeal w now rng).1.stateManager.currentState.combo =
      (a.executeHeal w now rng).2.1.combo) ∧
    ((a.executeGuard w now rng).2.1.combo =
      a.state.combo +
        (if (a.executeGuard w now rng).2.1.critical then 2 else 1)) ∧
    ((a.executeGuard w now rng).1.stateManager.currentState.combo =
      (a.executeGuard w now rng).2.1.combo) := by
  refine ⟨rfl, ?_, rfl, ?_, rfl, ?_⟩
  · simp only [PhaserAdapter.executeAttack, emit_stateManager,
      updateCombo_stateManager, runMgr_stateManager]
    exact (applyActionResult_combo a.stateManager _ now hb
      (by
        show (0:ℚ) ≤ a.state.combo + _
        split_ifs <;> linarith)
      (by
        show (0:ℚ) ≤ (calculateAttackDamage w a.combatConfig _).finalValue
        linarith [one_le_attack_finalValue w a.combatConfig
          (rng.next).1])).1
  · simp only [PhaserAdapter.executeHeal, emit_stateManager,
      updateCombo_stateManager, runMgr_stateManager]
    exact (applyActionResult_combo a.stateManager _ now hb
      (by
        show (0:ℚ) ≤ a.state.combo + _
        split_ifs <;> linarith)
      (by
        show (0:ℚ) ≤ (calculateHealingAmount w a.combatConfig _).finalValue
        linarith [one_le_heal_finalValue w a.combatConfig
          (rng.next).1])).1
  · have hco : (0:ℚ) ≤ a.state.combo +
        (if (calculateGuardEffectiveness w 25 a.combatConfig).isCritical
         then 2 else 1) := by
      split_ifs <;> linarith
    have hval : (0:ℚ) ≤
        (calculateGuardEffectiveness w 25 a.combatConfig).finalValue :=
      guard_value_nonneg w 25 a.combatConfig (by norm_num)
    have happ := applyActionResult_combo a.stateManager
      (.guard (createGuardResult w
        (calculateGuardEffectiveness w 25 a.combatConfig) 25
        (a.state.combo +
          (if (calculateGuardEffectiveness w 25 a.combatConfig).isCritical
           then 2 else 1)))) now hb hco hval
    simp only [PhaserAdapter.executeGuard, emit_stateManager]
    by_cases hdr : (createGuardResult w
        (calculateGuardEffectiveness w 25 a.combatConfig) 25
        (a.state.combo +
          (if (calculateGuardEffectiveness w 25 a.combatConfig).isCritical
           then 2 else 1))).damageReceived > 0
    · rw [if_pos hdr, runMgr_stateManager, updateCombo_stateManager,
        runMgr_stateManager, updateHP_player_combo _ _ _ happ.2]
      exact happ.1
    · rw [if_neg hdr, updateCombo_stateManager, runMgr_stateManager]
      exact happ.1

/- Lock-machine lemmas and concrete scenario state (claims C4, C9). -/

/-- resetComboAndUnlock zeroes the combo, unlocks, clears input and
session, and emits word-failed. -/
lemma resetComboAndUnlock_spec (a : PhaserAdapter) (reason : String) :
    (a.resetComboAndUnlock reason).state.combo = 0 ∧
    (a.resetComboAndUnlock reason).state.locked = none ∧
    (a.resetComboAndUnlock reason).inputBuffer = [] ∧
    (a.resetComboAndUnlock reason).currentTypingSession = none ∧
    GEvent.wordFailed reason ∈ (a.resetComboAndUnlock reason).events := by
  unfold PhaserAdapter.resetComboAndUnlock PhaserAdapter.unlockWords
    PhaserAdapter.updateCombo PhaserAdapter.setState PhaserAdapter.emit
  by_cases h : (0:ℚ) ≠ a.state.combo
  · rw [if_pos h]
    refine ⟨by simp [mergeState, noUpdate], by simp [mergeState, noUpdate],
      rfl, rfl, ?_⟩
    simp
  · rw [if_neg h]
    push_neg at h
    refine ⟨by simp [mergeState, noUpdate, h.symm],
      by simp [mergeState, noUpdate], rfl, rfl, ?_⟩
    simp

/-- Concrete heal candidate word (text 'heal') for the scenarios. -/
def healWordX : Word :=
  { id := "h1", text := ['h', 'e', 'a', 'l'], level := .l2, category := none,
    length := 4, expectedWPM := none }

/-- Concrete attack candidate word (text 'sword') for the scenarios. -/
def swordWordX : Word :=
  { id := "a1", text := ['s', 'w', 'o', 'r', 'd'], level := .l2,
    category := none, length := 5, expectedWPM := none }

/-- A fixed random stream for the scenarios. -/
def constRng : Rng := { draws := fun _ => 1/2, idx := 0 }

/-- The scenario adapter: PLAYING, candidates heal/sword, combo 3, no
lock, no pending session, no word manager. -/
def adapterX : PhaserAdapter :=
  { state :=
      { createInitialState with
        status := .PLAYING
        currentWords :=
          { heal := healWordX, attack := swordWordX, guard := none }
        combo := 3 }
    stateManager := initialManager
    inputBuffer := []
    currentTypingSession := none
    inputValidator := InputValidator.mk0
    wordManager := none
    config := { difficulty := .NORMAL, durationSec := 300 }
    events := [] }

/-- Claim C4: in the unlocked state, each accepted character is matched
case-insensitively as a prefix of both candidates: a unique match locks to
that word type, starts a typing session and emits word-locked; a double
match stays unlocked collecting input; no match resets the combo to 0,
clears the buffer, emits word-failed and stays unlocked.  Concretely, with
candidates 'heal' and 'sword', the key 'h' locks to heal and a subsequent
'x' unlocks with combo 0. -/
theorem claim_C4 :
    (∀ (a : PhaserAdapter) (c : Char) (now : ℚ) (rng : Rng),
      a.state.locked = none → a.currentTypingSession = none →
      isInputValidForWord (a.inputBuffer ++ [c]) a.state.currentWords.heal = true →
      isInputValidForWord (a.inputBuffer ++ [c]) a.state.currentWords.attack = false →
      a.inputBuffer ++ [c] ≠ a.state.currentWords.heal.text →
      ((a.handleCharacterInput c now rng).1.state.locked = some .heal ∧
       (a.handleCharacterInput c now rng).1.inputBuffer = a.inputBuffer ++ [c] ∧
       (a.handleCharacterInput c now rng).1.currentTypingSession =
         some (createTypingSession a.state.currentWords.heal .HEAL now) ∧
       (a.handleCharacterInput c now rng).1.events =
         a.events ++ [GEvent.stateChange, GEvent.wordLocked .heal])) ∧
    (∀ (a : PhaserAdapter) (c : Char) (now : ℚ) (rng : Rng),
      a.state.locked = none → a.currentTypingSession = none →
      isInputValidForWord (a.inputBuffer ++ [c]) a.state.currentWords.attack = true →
      isInputValidForWord (a.inputBuffer ++ [c]) a.state.currentWords.heal = false →
      a.inputBuffer ++ [c] ≠ a.state.currentWords.attack.text →
      ((a.handleCharacterInput c now rng).1.state.locked = some .attack ∧
       (a.handleCharacterInput c now rng).1.inputBuffer = a.inputBuffer ++ [c] ∧
       (a.handleCharacterInput c now rng).1.currentTypingSession =
         some (createTypingSession a.state.currentWords.attack .ATTACK now) ∧
       (a.handleCharacterInput c now rng).1.events =
         a.events ++ [GEvent.stateChange, GEvent.wordLocked .attack])) ∧
    (∀ (a : PhaserAdapter) (c : Char) (now : ℚ) (rng : Rng),
      a.state.locked = none → a.currentTypingSession = none →
      isInputValidForWord (a.inputBuffer ++ [c]) a.state.currentWords.heal = true →
      isInputValidForWord (a.inputBuffer ++ [c]) a.state.currentWords.attack = true →
      ((a.handleCharacterInput c now rng).1.state = a.state ∧
       (a.handleCharacterInput c now rng).1.inputBuffer = a.inputBuffer ++ [c] ∧
       (a.handleCharacterInput c now rng).1.events = a.events)) ∧
    (∀ (a : PhaserAdapter) (c : Char) (now : ℚ) (rng : Rng),
      a.state.locked = none → a.currentTypingSession = none →
      isInputValidForWord (a.inputBuffer ++ [c]) a.state.currentWords.heal = false →
      isInputValidForWord (a.inputBuffer ++ [c]) a.state.currentWords.attack = false →
      ((a.handleCharacterInput c now rng).1.state.combo = 0 ∧
       (a.handleCharacterInput c now rng).1.state.locked = none ∧
       (a.handleCharacterInput c now rng).1.inputBuffer = [] ∧
       GEvent.wordFailed "Invalid character input" ∈
         (a.handleCharacterInput c now rng).1.events)) ∧
    ((adapterX.handleCharacterInput 'h' 1000 constRng).1.state.locked =
      some .heal ∧
     GEvent.wordLocked .heal ∈
       (adapterX.handleCharacterInput 'h' 1000 constRng).1.events ∧
     ((adapterX.handleCharacterInput 'h' 1000 constRng).1.handleCharacterInput
        'x' 1001 constRng).1.state.locked = none ∧
     ((adapterX.handleCharacterInput 'h' 1000 constRng).1.handleCharacterInput
        'x' 1001 constRng).1.state.combo = 0 ∧
     GEvent.wordFailed "Incorrect input for locked word" ∈
       ((adapterX.handleCharacterInput 'h' 1000 constRng).1.handleCharacterInput
         'x' 1001 constRng).1.events) := by
  refine ⟨?_, ?_, ?_, ?_, ?_⟩
  · intro a c now rng hlock hsess hh ha hni
    have hdet : determineLockFromInput (a.inputBuffer ++ [c])
        a.state.currentWords = .lockTo .heal := by
      unfold determineLockFromInput
      rw [hh, ha]
      rfl
    simp only [PhaserAdapter.handleCharacterInput, hlock, hdet,
      PhaserAdapter.lockWord, PhaserAdapter.setState, PhaserAdapter.emit,
      lockedWordOf, PhaserAdapter.getCurrentTargetWord]
    simp only [mergeState, noUpdate, Option.getD]
    rw [if_neg hni]
    simp
  · intro a c now rng hlock hsess ha hh hni
    have hdet : determineLockFromInput (a.inputBuffer ++ [c])
        a.state.currentWords = .lockTo .attack := by
      unfold determineLockFromInput
      rw [hh, ha]
      rfl
    simp only [PhaserAdapter.handleCharacterInput, hlock, hdet,
      PhaserAdapter.lockWord, PhaserAdapter.setState, PhaserAdapter.emit,
      lockedWordOf, PhaserAdapter.getCurrentTargetWord]
    simp only [mergeState, noUpdate, Option.getD]
    rw [if_neg hni]
    simp
  · intro a c now rng hlock hsess hh ha
    have hdet : determineLockFromInput (a.inputBuffer ++ [c])
        a.state.currentWords = .ambiguous := by
      unfold determineLockFromInput
      rw [hh, ha]
      rfl
    simp only [PhaserAdapter.handleCharacterInput, hlock, hdet,
      PhaserAdapter.getCurrentTargetWord]
    split_ifs with hcompl
    · simp only [PhaserAdapter.completeCurrentWord, hsess]
      refine ⟨?_, ?_, ?_⟩ <;> trivial
    · refine ⟨?_, ?_, ?_⟩ <;> trivial
  · intro a c now rng hlock hsess hh ha
    have hdet : determineLockFromInput (a.inputBuffer ++ [c])
        a.state.currentWords = .incorrect := by
      unfold determineLockFromInput
      rw [hh, ha]
      rfl
    simp only [PhaserAdapter.handleCharacterInput, hlock, hdet]
    obtain ⟨r1, r2, r3, _r4, r5⟩ :=
      resetComboAndUnlock_spec a "Invalid character input"
    exact ⟨r1, r2, r3, r5⟩
  · refine ⟨?_, ?_, ?_, ?_, ?_⟩ <;> decide

/-- Claim C4 witness: the unique-match conjunct applied to the concrete
scenario adapter and the key 'h'. -/
theorem claim_C4_witness :
    (adapterX.handleCharacterInput 'h' 1000 constRng).1.state.locked =
      some LockType.heal ∧
    (adapterX.handleCharacterInput 'h' 1000 constRng).1.inputBuffer =
      adapterX.inputBuffer ++ ['h'] :=
  have h := claim_C4.1 adapterX 'h' 1000 constRng rfl rfl (by decide)
    (by decide) (by decide)
  ⟨h.1, h.2.1⟩

/-- Concrete completed word for the claim C9 witness. -/
def cwC9 : CompletedWord :=
  { word := healWordX, typedText := ['h', 'e', 'a', 'l'], timeMs := 2000,
    errors := 0, accuracy := 1, wpm := 24, score := 100,
    keystrokePattern := none }

/-- Claim C9 witness: the attack conjuncts applied on the concrete
scenario adapter (combo 3). -/
theorem claim_C9_witness :
    StateBounds adapterX.stateManager.currentState ∧
    (0:ℚ) ≤ adapterX.state.combo ∧
    ((adapterX.executeAttack cwC9 5 constRng).2.1.combo =
      adapterX.state.combo +
        (if (adapterX.executeAttack cwC9 5 constRng).2.1.critical
         then 2 else 1)) ∧
    ((adapterX.executeAttack cwC9 5 constRng).1.stateManager.currentState.combo =
      (adapterX.executeAttack cwC9 5 constRng).2.1.combo) :=
  have hb : StateBounds adapterX.stateManager.currentState :=
    initial_state_bounds
  have hc : (0:ℚ) ≤ adapterX.state.combo := by
    show (0:ℚ) ≤ 3
    norm_num
  have h := claim_C9 adapterX cwC9 5 constRng hb hc
  ⟨hb, hc, h.1, h.2.1⟩

/- Concrete failing input for handleEnterKey (claim C5). -/

/-- Two-word pool that selects successfully under NORMAL difficulty. -/
def poolC5 : List Word := [healWordX, swordWordX]

/-- WordManager over the two-word pool. -/
def wmC5 : WordManager :=
  { wordPool := poolC5, recentWords := [], currentSelection := none,
    lockState := none, lockStartTime := 0 }

/-- A pending typing session locked on 'heal' with the partial input 'he'
typed correctly. -/
def sessionC5 : TypingSession :=
  { word := healWordX, startTime := 0, endTime := 0
    keystrokes :=
      [{ key := .ch 'h', timestamp := 100, inputLength := 1,
         isCorrection := false },
       { key := .ch 'e', timestamp := 200, inputLength := 2,
         isCorrection := false }]
    currentInput := ['h', 'e'], errors := 0, corrections := 0,
    perfectStreak := 0 }

/-- The adapter at the failing input of claim C5: locked to heal, buffer
'he' (a strict prefix of the locked word), active session. -/
def adapterC5 : PhaserAdapter :=
  { state :=
      { createInitialState with
        status := .PLAYING
        currentWords :=
          { heal := healWordX, attack := swordWordX, guard := none }
        locked := some .heal }
    stateManager := initialManager
    inputBuffer := ['h', 'e']
    currentTypingSession := some sessionC5
    inputValidator := InputValidator.mk0
    wordManager := some wmC5
    config := { difficulty := .NORMAL, durationSec := 300 }
    events := [] }

theorem int_toNat_five : (Int.toNat 5) = 5 := rfl

theorem normal_ne_hard : (GameDifficulty.NORMAL = GameDifficulty.HARD) = False := by
  simp

set_option maxHeartbeats 4000000 in
/-- Claim C5 (code bug witness): pressing Enter while locked on 'heal'
with the buffer 'he' — non-empty but NOT an exact match — still runs the
full finalization (word-completed emitted, session and input cleared,
unlock), contradicting the claimed exact-match gate of handleEnterKey. -/
theorem claim_C5 :
    adapterC5.inputBuffer ≠ adapterC5.state.currentWords.heal.text ∧
    adapterC5.inputBuffer.length > 0 ∧
    adapterC5.state.locked = some LockType.heal ∧
    adapterC5.currentTypingSession.isSome = true ∧
    GEvent.wordCompleted ∈ (adapterC5.handleEnterKey 2000 constRng).1.events ∧
    (adapterC5.handleEnterKey 2000 constRng).1.currentTypingSession = none ∧
    (adapterC5.handleEnterKey 2000 constRng).1.inputBuffer = [] ∧
    (adapterC5.handleEnterKey 2000 constRng).1.state.locked = none := by
  refine ⟨by decide, by decide, rfl, rfl, ?_, ?_, ?_, ?_⟩ <;>
    norm_num [PhaserAdapter.handleEnterKey, PhaserAdapter.getCurrentTargetWord,
      PhaserAdapter.completeCurrentWord, PhaserAdapter.getActionTypeForCurrentWord,
      PhaserAdapter.executeHeal, PhaserAdapter.combatConfig,
      PhaserAdapter.runMgr, PhaserAdapter.updateCombo, PhaserAdapter.setState,
      PhaserAdapter.emit, PhaserAdapter.unlockWords, PhaserAdapter.selectNewWords,
      adapterC5, sessionC5, wmC5, poolC5, healWordX, swordWordX,
      createInitialState, initialManager, phaserManagerOptions, emptyGuardWord,
      completeTypingSession, validateCompletedWord, calculateWPM,
      calculateAccuracy, analyzeKeystrokePattern, analyzePatternAux, jsObjSet,
      calculateVarianceSq, validateKeystrokePattern, calculateWordComplexity,
      isAsciiLetter, jsToLower, jsSetAdd, createCompletedWord, calculateScore,
      getExpectedWPMForWord, calculateHealingAmount, calculateAccuracyModifier,
      calculateSpeedModifier, calculateComboModifier, calculateLevelModifier,
      calculateCriticalHitChance, getExpectedWPM, jsOrNum,
      WORD_LEVEL_BASE_HEALING, DIFFICULTY_MODIFIERS, createHealResult,
      MIN_ACCURACY_FOR_SUCCESS, GameStateManager.applyActionResult,
      GameStateManager.updateState, mergeState, noUpdate,
      validateStateTransition, isValidStatusTransition,
      statusTransitionTargets, recordHistory, WordManager.selectWords,
      createWordPoolConfig, DIFFICULTY_LEVEL_RANGES, DIFFICULTY_LENGTH_RANGES,
      calculateCategoryWeights, filterWordPool, selectWordForType,
      WORD_TYPE_PREFERENCES, scoreCandidates, scoreWordForType,
      insertByScoreDesc, sortByScoreDesc, weightedRandomSelect, weightedScan,
      shouldIncludeGuardWord, updateRecentWords,
      GameStateManager.updateCurrentWords, validateWords, Rng.next, constRng,
      WordLevel.val, jsRound, InputValidator.mk0, DEFAULT_VALIDATION_RULES,
      FLAG_PERFECT_INTERVALS, FLAG_NO_CORRECTIONS, FLAG_IMPOSSIBLE_SPEED,
      FLAG_ZERO_VARIANCE, FLAG_INVALID_PROGRESSION, ActionResult.combo,
      int_toNat_five, normal_ne_hard, List.take_succ_cons, List.take_nil, List.take_zero,
      List.sum_cons, List.sum_nil, Option.getD, Option.isSome,
      List.foldl_cons, List.foldl_nil, List.foldr_cons, List.foldr_nil,
      List.map_cons, List.map_nil, List.filter_cons, List.filter_nil,
      List.mem_append, List.mem_cons, List.zip_cons_cons, List.zip_nil_right,
      List.zip_nil_left, List.length_cons, List.length_nil, List.lookup,
      Except.instMonad, Except.bind, Except.pure, Except.map,
      List.getLast?_cons, List.getLast?_singleton]

end TypingQuest
